import Mathlib

/-!
Verification development for the `eqsim_parse` repository
(`parse-sim.py`, `pim.py`): a shallow embedding of the stateful
multi-section SIM report parser and its post-processing, with theorems
settling the frozen claims about it.

Python `str` values are embedded as Lean `String`; all character-level
scanning is written by structural recursion over `List Char` so that every
definition is executable and kernel-reducible.  The Python `re` patterns
used by the source are embedded as concrete matching functions, each one
derived from the exact pattern string appearing in the source.
`pandas.DataFrame` objects are embedded as `Table` values: an ordered
column-name list plus an ordered row list of `(label, cells)`, with
`.loc[label] = values` embedded as a length-checked upsert (pandas raises
`ValueError` on a mismatched row length).  Exceptions are embedded with
`Except PErr`.
-/

namespace EqSim

deriving instance DecidableEq for Except

/-- The runtime errors the Python scripts can raise: `NameError` for a
local variable read before assignment, `KeyError` for a missing dict key
(`keyErrorNone` is `dict[None]`), `ValueError` for a pandas row-length or
index-length mismatch or a failed strict `pd.to_numeric`, `IndexError`
for an out-of-range list index (including `f_list[i + 1]`), and
`headerCapture` for the explicit `raise Exception(...)` on a failed
PS-F / SS-A / SS-B header name capture. -/
inductive PErr where
  | nameError (v : String)
  | keyError (k : String)
  | keyErrorNone
  | valueError
  | indexError
  | headerCapture (code : String)
deriving DecidableEq, Repr

/-- One pandas cell: `nan` (an unwritten preallocated cell), a raw string
token written during the scan, or a number produced by `pd.to_numeric`
during post-processing (floats modelled as `ℚ`). -/
inductive Cell where
  | nan
  | val (s : String)
  | num (q : ℚ)
deriving DecidableEq, Repr

/-- A DataFrame: ordered column names and ordered rows keyed by `κ`
(the row index labels).  `κ` is `String`, `Option String` (a label that
may be Python `None`) or a pair, matching each frame in the source. -/
structure Table (κ : Type) where
  cols : List String
  rows : List (κ × List Cell)
deriving DecidableEq, Repr

/-- Replace the first row with key `k` by `(k, v)`, or append if absent:
the behaviour of `df.loc[k] = v` on the row axis. -/
def upsertRow {κ : Type} [DecidableEq κ] (rows : List (κ × List Cell)) (k : κ)
    (v : List Cell) : List (κ × List Cell) :=
  if rows.any (fun p => decide (p.1 = k)) then
    rows.map (fun p => if p.1 = k then (k, v) else p)
  else rows ++ [(k, v)]

/-- `df.loc[k] = values` / `df.loc[k, :] = values`: pandas raises
`ValueError` unless the assigned list has exactly one value per column;
otherwise the row is upserted. -/
def Table.write {κ : Type} [DecidableEq κ] (t : Table κ) (k : κ)
    (vs : List String) : Except PErr (Table κ) :=
  if vs.length = t.cols.length then
    .ok { t with rows := upsertRow t.rows k (vs.map Cell.val) }
  else .error .valueError

/-- `df.index = newIndex`: relabels the rows positionally; pandas raises
`ValueError` unless the new index has exactly one label per row. -/
def Table.setIndex {κ : Type} (t : Table κ) (ks : List κ) :
    Except PErr (Table κ) :=
  if ks.length = t.rows.length then
    .ok { t with rows := ks.zip (t.rows.map (fun p => p.2)) }
  else .error .valueError

/-- The row labels of a table, in order. -/
def Table.keys {κ : Type} (t : Table κ) : List κ := t.rows.map (fun p => p.1)

/-- Well-formed table: every row has exactly one cell per schema column. -/
def Table.WF {κ : Type} (t : Table κ) : Prop :=
  ∀ p ∈ t.rows, (p.2 : List Cell).length = t.cols.length

/-! ### Python dicts (insertion-ordered association lists) -/

/-- `d[k]` as an `Option`. -/
def lookupD {α : Type} (d : List (String × α)) (k : String) : Option α :=
  (d.find? (fun p => decide (p.1 = k))).map (fun p => p.2)

/-- `d[k] = v` for a key already present (preserves dict order). -/
def updateD {α : Type} (d : List (String × α)) (k : String) (v : α) :
    List (String × α) :=
  d.map (fun p => if p.1 = k then (k, v) else p)

/-- `del d[k]`. -/
def removeD {α : Type} (d : List (String × α)) (k : String) :
    List (String × α) :=
  d.filter (fun p => decide (p.1 ≠ k))

/-- The keys of a dict, in insertion order. -/
def keysD {α : Type} (d : List (String × α)) : List String :=
  d.map (fun p => p.1)

/-- `d[k]` where a missing key raises `KeyError`. -/
def lookupE {α : Type} (d : List (String × α)) (k : String) :
    Except PErr α :=
  match lookupD d k with
  | some v => .ok v
  | none => .error (.keyError k)

/-! ### Character classes and basic string utilities -/

/-- Python `\w` (restricted to the ASCII range relevant to SIM files):
a letter, a digit or an underscore. -/
def isWordChar (c : Char) : Bool := c.isAlphanum || c = '_'

/-- `l[i]` where an out-of-range index raises `IndexError`. -/
def listGet {α : Type} (l : List α) (i : Nat) : Except PErr α :=
  match l.get? i with
  | some x => .ok x
  | none => .error .indexError

/-- Reading a Python local that may not have been assigned yet
(`NameError` / `UnboundLocalError` when it has not). -/
def reqName (v : String) (o : Option String) : Except PErr String :=
  match o with
  | some x => .ok x
  | none => .error (.nameError v)

/-- `List.isPrefixOf` specialised to `Char`, as a `Bool`. -/
def isPre (p l : List Char) : Bool := List.isPrefixOf p l

/-- `needle in haystack` on character lists (Python's `in` on `str`). -/
def hasInfix (needle : List Char) : List Char → Bool
  | [] => needle.isEmpty
  | c :: rest => isPre needle (c :: rest) || hasInfix needle rest

/-- Python `needle in line` for strings. -/
def containsStr (line needle : String) : Bool := hasInfix needle.data line.data

/-- Accumulator-based worker for Python `str.split()` (split on runs of
whitespace, discarding empty fields). -/
def splitWsAux : List Char → List Char → List String
  | [], acc => if acc.isEmpty then [] else [String.mk acc.reverse]
  | c :: rest, acc =>
    if c.isWhitespace then
      if acc.isEmpty then splitWsAux rest []
      else String.mk acc.reverse :: splitWsAux rest []
    else splitWsAux rest (c :: acc)

/-- Python `line.split()`. -/
def pySplit (line : String) : List String := splitWsAux line.data []

/-- Worker for `re.split(r'\s{2,}', line)`: a maximal run of two or more
whitespace characters is a field separator; a single whitespace character
stays inside its field.  The flag is true while skipping the remainder of
a separator run. -/
def split2Aux : Bool → List Char → List Char → List String
  | _, [], acc => [String.mk acc.reverse]
  | true, c :: rest, acc =>
    if c.isWhitespace then split2Aux true rest acc
    else split2Aux false rest (c :: acc)
  | false, [c], acc => [String.mk (c :: acc).reverse]
  | false, c :: c2 :: rest, acc =>
    if c.isWhitespace && c2.isWhitespace then
      String.mk acc.reverse :: split2Aux true rest []
    else split2Aux false (c2 :: rest) (c :: acc)

/-- `re.split(r'\s{2,}', line)` (never returns an empty list). -/
def split2sp (line : String) : List String := split2Aux false line.data []

/-- Python `str.strip()`. -/
def pyStrip (s : String) : String :=
  String.mk (((s.data.dropWhile Char.isWhitespace).reverse.dropWhile
    Char.isWhitespace).reverse)

/-- Python `str.rstrip('\n')`. -/
def pyRstripNl (s : String) : String :=
  String.mk ((s.data.reverse.dropWhile (fun c => c = '\n')).reverse)

/-- Python `l[-n:]`: the last `n` elements (the whole list when it is
shorter than `n`). -/
def pySliceLast {α : Type} (n : Nat) (l : List α) : List α :=
  l.drop (l.length - n)

/-- Python `l.get(-1)` used as `l_list[-1]` (IndexError on an empty list). -/
def pyLast {α : Type} (l : List α) : Except PErr α :=
  match l.getLast? with
  | some x => .ok x
  | none => .error .indexError

/-! ### The concrete `re` patterns of the source -/

/-- `re.match(r'^\s{19}[PH]', line)` (`unmet_pattern`): exactly 19
whitespace characters then `P` or `H`. -/
def matchesUnmet (line : String) : Bool :=
  let cs := line.data
  let w := cs.take 19
  w.length = 19 && w.all Char.isWhitespace &&
    (match cs.drop 19 with
     | c :: _ => c = 'P' || c = 'H'
     | [] => false)

/-- `re.match(r'^\s{19}TOTAL', line)` (`summ_pattern`). -/
def matchesSumm (line : String) : Bool :=
  let cs := line.data
  let w := cs.take 19
  w.length = 19 && w.all Char.isWhitespace && isPre "TOTAL".data (cs.drop 19)

/-- `re.match(r'^\s{4}[MBTU]', line)`: four whitespace characters then one
of the characters `M`, `B`, `T`, `U` (a character class, not the word
"MBTU"). -/
def matchesCompIndent (line : String) : Bool :=
  let cs := line.data
  let w := cs.take 4
  w.length = 4 && w.all Char.isWhitespace &&
    (match cs.drop 4 with
     | c :: _ => c = 'M' || c = 'B' || c = 'T' || c = 'U'
     | [] => false)

/-- `re.match(r'^\w', line)`. -/
def startsWord (line : String) : Bool :=
  match line.data with
  | c :: _ => isWordChar c
  | [] => false

/-- `re.match(r'^\s{2}\w', line)`: exactly two whitespace characters then a
word character. -/
def matchesFanIndent (line : String) : Bool :=
  match line.data with
  | a :: b :: c :: _ => a.isWhitespace && b.isWhitespace && isWordChar c
  | _ => false

/-- `re.match(month_pattern, line)` with
`month_pattern = r'^\w{3}(?=\n)'`: three word characters at the start of
the line, immediately followed by the newline. -/
def matchMonth (line : String) : Option String :=
  match line.data with
  | c0 :: c1 :: c2 :: c3 :: _ =>
    if isWordChar c0 && isWordChar c1 && isWordChar c2 && c3 = '\n' then
      some (String.mk [c0, c1, c2])
    else none
  | _ => none

/-- `re.match(meter_pattern, line)` with
`meter_pattern = r'^(\w*?)\s{1,}?[NE][LA]'`.  Both quantifiers are lazy,
and `[NE]` is not a whitespace or word character boundary issue: the lazy
`\w*?` is forced to consume exactly the leading word-character run and the
lazy `\s{1,}?` exactly the following whitespace run (the next character
must be `N` or `E`, which is neither a word continuation nor whitespace).
Returns `m.group()`, the whole matched text. -/
def matchMeter (line : String) : Option String :=
  let cs := line.data
  let a := cs.takeWhile isWordChar
  let r1 := cs.drop a.length
  let w := r1.takeWhile Char.isWhitespace
  if w.length = 0 then none
  else
    match r1.drop w.length with
    | c1 :: c2 :: _ =>
      if (c1 = 'N' || c1 = 'E') && (c2 = 'L' || c2 = 'A') then
        some (String.mk (a ++ w ++ [c1, c2]))
      else none
    | _ => none

/-- Helper for the lazy captures `(.*?)` that stop right before a literal
(`.` does not match a newline): the shortest prefix of the input after
which `stop` is an immediate prefix of the remainder. -/
def lazyCapBefore (stop : List Char) : List Char → Option (List Char)
  | [] => if stop.isEmpty then some [] else none
  | c :: rest =>
    if isPre stop (c :: rest) then some []
    else if c = '\n' then none
    else (lazyCapBefore stop rest).map (fun x => c :: x)

/-- `re.match(plant_equip_pattern, line)` with
`plant_equip_pattern = r'\*\*\* (.*?) \*\*\*'`, returning `m.group(1)`. -/
def matchPlantEquip (line : String) : Option String :=
  if isPre "*** ".data line.data then
    (lazyCapBefore " ***".data (line.data.drop 4)).map String.mk
  else none

/-- `re.match(r'^(.*?)\s{2,}', line)`, returning `m.group(1)`: the shortest
prefix (newline-free) followed by at least two consecutive whitespace
characters. -/
def matchUpToGap (line : String) : Option String :=
  (lazyCap2ws line.data).map String.mk
where
  lazyCap2ws : List Char → Option (List Char)
    | [] => none
    | [_] => none
    | c :: c2 :: rest =>
      if c.isWhitespace && c2.isWhitespace then some []
      else if c = '\n' then none
      else (lazyCap2ws (c2 :: rest)).map (fun x => c :: x)

/-! ### The `REPORT- <code> ... for\s+((.*?))\s+WEATHER FILE` header patterns -/

/-- After the capture group the pattern requires `\s+WEATHER FILE`: at
least one whitespace character and then the literal.  Since `W` is not
whitespace the whitespace count is forced to the full run. -/
def wfTailOk (cs : List Char) : Bool :=
  let w := cs.takeWhile Char.isWhitespace
  !w.isEmpty && isPre "WEATHER FILE".data (cs.drop w.length)

/-- The lazy group `((.*?))`: the shortest (newline-free) prefix after
which `\s+WEATHER FILE` matches. -/
def capAt : List Char → Option (List Char)
  | [] => none
  | c :: rest =>
    if wfTailOk (c :: rest) then some []
    else if c = '\n' then none
    else (capAt rest).map (fun x => c :: x)

/-- The greedy `\s+` after the literal preamble: try the largest
whitespace-run prefix first and backtrack down to a single character. -/
def outerWs (rest : List Char) : Nat → Option String
  | 0 => none
  | k + 1 =>
    match capAt (rest.drop (k + 1)) with
    | some x => some (String.mk x)
    | none => outerWs rest k

/-- `re.match(lit + r'\s+((.*?))\s+WEATHER FILE', line)` returning
`m.group(1)`.  This is the common shape of `sva_header_pattern`,
`ps_f_header_pattern`, `ss_a_header_pattern` and `ss_b_header_pattern`
(each with its own literal preamble `lit`). -/
def headerCapture (lit : String) (line : String) : Option String :=
  if isPre lit.data line.data then
    let rest := line.data.drop lit.data.length
    outerWs rest (rest.takeWhile Char.isWhitespace).length
  else none

/-- The literal preamble of `sva_header_pattern`. -/
def svaHeaderLit : String := "REPORT- SV-A System Design Parameters for"

/-- The literal preamble of `ps_f_header_pattern`. -/
def psfHeaderLit : String := "REPORT- PS-F Energy End-Use Summary for"

/-- The literal preamble of `ss_a_header_pattern`. -/
def ssaHeaderLit : String := "REPORT- SS-A System Loads Summary for"

/-- The literal preamble of `ss_b_header_pattern`. -/
def ssbHeaderLit : String := "REPORT- SS-B System Loads Summary for"

/-! ### The LV-D `surface_pattern` (used with `re.search`) -/

/-- Is the first character a digit (start of `\d+`)? -/
def headIsDigit : List Char → Bool
  | c :: _ => c.isDigit
  | [] => false

/-- Lookahead `(?=\s{15,21}\d+)`: since a digit is not whitespace the
whitespace count is forced to the full run, which must lie in 15..21. -/
def look1521 (cs : List Char) : Bool :=
  let w := (cs.takeWhile Char.isWhitespace).length
  decide (15 ≤ w) && decide (w ≤ 21) && headIsDigit (cs.drop w)

/-- Lookahead `(?=\s+?\d+)`: at least one whitespace character, then a
digit right after the whitespace run. -/
def lookWsDigit (cs : List Char) : Bool :=
  let w := (cs.takeWhile Char.isWhitespace).length
  decide (1 ≤ w) && headIsDigit (cs.drop w)

/-- Greedy backtracking for a `+`-quantified character class followed by a
lookahead: the largest `j ≥ 1` with `f j` true, searching downward. -/
def tryJ (f : Nat → Bool) : Nat → Option Nat
  | 0 => none
  | j + 1 => if f (j + 1) then some (j + 1) else tryJ f j

/-- One attempt of
`surface_pattern = r'^[\w-]+(?=\s{15,21}\d+)|(?<=\s{4})[\w+]+(?=\s+?\d+)|ALL WALLS'`
at a single position: `prevRev` holds the characters before the position
(reversed, for the `^` anchor and the `(?<=\s{4})` lookbehind), `cs` the
remainder.  Alternatives are tried in pattern order; returns `m.group()`. -/
def surfAltsAt (prevRev cs : List Char) : Option String :=
  let alt1 : Option String :=
    if prevRev.isEmpty then
      let run := (cs.takeWhile (fun c => isWordChar c || c = '-')).length
      match tryJ (fun j => look1521 (cs.drop j)) run with
      | some j => some (String.mk (cs.take j))
      | none => none
    else none
  match alt1 with
  | some g => some g
  | none =>
    let alt2 : Option String :=
      if (prevRev.take 4).length = 4 && (prevRev.take 4).all Char.isWhitespace
      then
        let run := (cs.takeWhile (fun c => isWordChar c || c = '+')).length
        match tryJ (fun j => lookWsDigit (cs.drop j)) run with
        | some j => some (String.mk (cs.take j))
        | none => none
      else none
    match alt2 with
    | some g => some g
    | none => if isPre "ALL WALLS".data cs then some "ALL WALLS" else none

/-- `re.search` scanning: try the pattern at each position left to right. -/
def surfSearchAux (prevRev : List Char) : List Char → Option String
  | [] => none
  | c :: rest =>
    match surfAltsAt prevRev (c :: rest) with
    | some g => some g
    | none => surfSearchAux (c :: prevRev) rest

/-- `re.search(surface_pattern, line)` returning `m.group()`. -/
def surfSearch (line : String) : Option String := surfSearchAux [] line.data

/-! ### `find_in_header` (identical in `parse-sim.py` and `pim.py`) -/

/-- `find_in_header(f_list, pattern, report)`: scan every line; on a line
whose first two whitespace tokens are `REPORT-` and `report`, try the
header pattern (embedded as its capture function `pattern`); append a
captured name unless already collected. -/
def find_in_header (f_list : List String) (pattern : String → Option String)
    (report : String) : List String :=
  f_list.foldl
    (fun all_finds line =>
      match pySplit line with
      | t0 :: t1 :: _ =>
        if t0 = "REPORT-" ∧ t1 = report then
          match pattern line with
          | some current_find =>
            if current_find ∈ all_finds then all_finds
            else all_finds ++ [current_find]
          | none => all_finds
        else all_finds
      | _ => all_finds)
    []

/-! ### Schemas: the column lists of the `create_*_dict` functions -/

/-- Cartesian product of index levels, first level major
(`pd.MultiIndex.from_product`). -/
def listProd {α β : Type} (xs : List α) (ys : List β) : List (α × β) :=
  xs.flatMap (fun a => ys.map (fun b => (a, b)))

def loop_info_cols : List String :=
  ["Heating Cap. (mmBTU/hr)", "Cooling Cap. (mmBTU/hr)", "Loop Flow (GPM)",
   "Total Head (ft)", "Supply UA (BTU/h.F)", "Supply Loss DT (F)",
   "Return UA (BTU/h.F)", "Return Loss DT (F)", "Loop Volume (gal)",
   "Fluid Heat Cap. (BTU/lb.F)"]

def pump_info_cols : List String :=
  ["Attached to", "Flow (GPM)", "Head (ft)", "Head Setpoint (ft)",
   "Capacity Control", "Power (kW)", "Mech. Eff", "Motor Eff"]

def primary_info_cols : List String :=
  ["Equipment Type", "Attached to", "Capacity (mmBTU/hr)", "Flow (GPM)",
   "EIR", "HIR", "Aux. (kW)"]

def ct_info_cols : List String :=
  ["Equipment Type", "Attached to", "Cap. (mmBTU/hr)", "Flow (GPM)",
   "Nb of Cells", "Fan Power per Cell (kW)", "Spray Power per Cell (kW)",
   "Aux. (kW)"]

def dhw_info_cols : List String :=
  ["Equipment Type", "Attached to", "Cap. (mmBTU/hr)", "Flow (GPM)", "EIR",
   "HIR", "Auxiliary (kW)", "Tank (Gal)", "Tank UA (BTU/h.ft)"]

/-- `create_pv_a_dict()`: five empty frames in insertion order. -/
def create_pv_a_dict : List (String × Table String) :=
  [("CIRCULATION LOOPS", ⟨loop_info_cols, []⟩),
   ("PUMPS", ⟨pump_info_cols, []⟩),
   ("PRIMARY EQUIPMENT", ⟨primary_info_cols, []⟩),
   ("COOLING TOWERS", ⟨ct_info_cols, []⟩),
   ("DW-HEATERS", ⟨dhw_info_cols, []⟩)]

def system_info_cols : List String :=
  ["System Type", "Altitude Factor", "Floor Area (sqft)", "Max People",
   "Outside Air Ratio", "Cooling Capacity (kBTU/hr)", "Sensible (SHR)",
   "Heating Capacity (kBTU/hr)", "Cooling EIR (BTU/BTU)",
   "Heating EIR (BTU/BTU)", "Heat Pump Supplemental Heat (kBTU/hr)"]

def fan_info_cols : List String :=
  ["Capacity (CFM)", "Diversity Factor (FRAC)", "Power Demand (kW)",
   "Fan deltaT (F)", "Static Pressure (in w.c.)", "Total efficiency",
   "Mechanical Efficiency", "Fan Placement", "Fan Control",
   "Max Fan Ratio (Frac)", "Min Fan Ratio (Frac)"]

def zone_info_cols : List String :=
  ["Supply Flow (CFM)", "Exhaust Flow (CFM)", "Fan (kW)",
   "Minimum Flow (Frac)", "Outside Air Flow (CFM)",
   "Cooling Capacity (kBTU/hr)", "Sensible (FRAC)", "Extract Rate (kBTU/hr)",
   "Heating Capacity (kBTU/hr)", "Addition Rate (kBTU/hr)", "Zone Mult"]

def component_info_cols : List String :=
  ["Energy Type", "Lights", "Task Lights", "Misc Equipment", "Space Heating",
   "Space Cooling", "Heat Reject", "Pumps/Aux", "Vent Fans",
   "Refrig Display", "Ht Pump Supplem", "DHW", "Ext Usage", "Total"]

def summary_info_cols : List String :=
  ["Total [MBTU]", "Energy per GFA [kBTU/sqft]",
   "Energy per Net Area [kBTU/sqft]"]

def unmet_info_cols : List String :=
  ["% of Hours Outside Throttling Range", "% of Hours Plant Load Unmet",
   "Hours Cooling Unmet", "Hours Heating Unmet"]

/-- `create_beps_dict()`. -/
def create_beps_dict : List (String × Table String) :=
  [("BUILDING COMPONENTS", ⟨component_info_cols, []⟩),
   ("ENERGY SUMMARY", ⟨summary_info_cols, []⟩),
   ("UNMET INFO", ⟨unmet_info_cols, []⟩)]

def ps_f_component_cols : List String :=
  ["Lights", "Task Lights", "Misc Equipment", "Space Heating",
   "Space Cooling", "Heat Reject", "Pumps/Aux", "Vent Fans",
   "Refrig Display", "Ht Pump Supplem", "DHW", "Ext Usage", "Total"]

def months12 : List String :=
  ["JAN", "FEB", "MAR", "APR", "MAY", "JUN", "JUL", "AUG", "SEP", "OCT",
   "NOV", "DEC"]

def ps_f_measures : List String :=
  ["KWH", "Max KW", "Day/Hour", "Peak End Use", "Peak Pct"]

/-- The preallocated `Month × Measure` index of a PS-F frame
(`parse-sim.py` version: 12 months, no TOTAL level). -/
def ps_f_index : List (String × String) := listProd months12 ps_f_measures

/-- `create_ps_f_dict(list_of_meters)`: one preallocated 60-row NaN frame
per meter. -/
def create_ps_f_dict (list_of_meters : List String) :
    List (String × Table (String × String)) :=
  list_of_meters.map (fun meter =>
    (meter,
     ⟨ps_f_component_cols,
      ps_f_index.map (fun k =>
        (k, List.replicate ps_f_component_cols.length Cell.nan))⟩))

def ss_a_cols : List String :=
  ["Cooling Energy (MBTU)", "Day", "Hour", "Dry-bulb Temp", "Wet-bulb Temp",
   "Max Cooling Load (KBtu/hr)", "Heating Energy (MBTU)", "Day", "Hour",
   "Dry-bulb Temp", "Wet-bulb Temp", "Max Heating Load (KBtu/hr)",
   "Electrical Energy (KWH)", "Max Elec Load (KW)"]

def ss_ab_index : List String :=
  ["JAN", "FEB", "MAR", "APR", "MAY", "JUN", "JUL", "AUG", "SEP", "OCT",
   "NOV", "DEC", "TOTAL", "MAX"]

/-- `create_ss_a_dict(list_of_sys)`: one preallocated 14-row NaN frame per
system. -/
def create_ss_a_dict (list_of_sys : List String) :
    List (String × Table String) :=
  list_of_sys.map (fun sys =>
    (sys, ⟨ss_a_cols,
           ss_ab_index.map (fun k =>
             (k, List.replicate ss_a_cols.length Cell.nan))⟩))

def ss_b_cols : List String :=
  ["Cooling by Zone Coils or Nat Ventil (MBTU)",
   "Max Cooling by Zone Coils or Nat Ventil (KBtu/Hr)",
   "Heating by Zone Coils or Nat Ventil (MBTU)",
   "Max Heating by Zone Coils or Nat Ventil (KBtu/Hr)",
   "Baseboard Heating Energy (MBTU)",
   "Max Baseboard Heating Energy (KBtu/Hr)",
   "Preheat Coil Energy or Elec For Furn Fan (MBTU)",
   "Max Preheat Coil Energy or Elec for Furn Fan (KBtu/Hr)"]

/-- `create_ss_b_dict(list_of_sys)`. -/
def create_ss_b_dict (list_of_sys : List String) :
    List (String × Table String) :=
  list_of_sys.map (fun sys =>
    (sys, ⟨ss_b_cols,
           ss_ab_index.map (fun k =>
             (k, List.replicate ss_b_cols.length Cell.nan))⟩))

def avg_u_cols : List String :=
  ["Avg Window U-value", "Avg Walls U-Value", "Avg Window+Walls U-Value",
   "Window Area (sqft)", "Wall Area (sqft)", "Win+Wall Area (sqft)"]

/-- `create_lv_d_dict()['Avg_U']`. -/
def create_lv_d_table : Table String := ⟨avg_u_cols, []⟩

/-! ### Parser state

The mutable locals of `parse_sim`, grouped by the handler that touches
them.  `Option String` fields initialised to `none` model either a Python
variable initialised to `None` (`system_name`, `current_report`,
`current_type`, `current_plant_equip`, `current_sv_a_section`) or one not
yet assigned at all (`meter`, `current_meter`, `current_month`,
`current_sys`), whose read raises `NameError` (`reqName`).  `system_name`
is special: Python's `None` is a legal row label for the SV-A frames, so
those frames are keyed by `Option String`. -/

/-- BEPS-handler state: `meter`, `current_type`, the `unmet_info`
accumulator and the three BEPS frames. -/
structure BepsSt where
  meter : Option String
  current_type : Option String
  unmet_info : List String
  components : Table String
  summary : Table String
  unmet : Table String
deriving DecidableEq, Repr

/-- SV-A-handler state: `current_sv_a_section` and the three SV-A frames
(`system_name` lives in the top-level state, shared with the header
dispatcher). -/
structure SvaSt where
  current_sv_a_section : Option String
  systems : Table (Option String)
  fans : Table (Option String × String)
  zones : Table (Option String × String)
deriving DecidableEq, Repr

/-- The whole `parse_sim` state carried across the single forward pass. -/
structure St where
  current_report : Option String
  system_name : Option String
  current_meter : Option String
  current_sys : Option String
  current_month : Option String
  current_plant_equip : Option String
  beps : BepsSt
  sva : SvaSt
  lv_d : Table String
  ps_f : List (String × Table (String × String))
  pv_a : List (String × Table String)
  ss_a : List (String × Table String)
  ss_b : List (String × Table String)
  log : List String
deriving DecidableEq, Repr

/-- The state at the top of the scan loop, after the pre-scans and
`create_*_dict` calls. -/
def init_st (list_of_meters list_of_sys : List String) : St where
  current_report := none
  system_name := none
  current_meter := none
  current_sys := none
  current_month := none
  current_plant_equip := none
  beps :=
    { meter := none, current_type := none, unmet_info := []
      components := ⟨component_info_cols, []⟩
      summary := ⟨summary_info_cols, []⟩
      unmet := ⟨unmet_info_cols, []⟩ }
  sva :=
    { current_sv_a_section := none, systems := ⟨system_info_cols, []⟩
      fans := ⟨fan_info_cols, []⟩, zones := ⟨zone_info_cols, []⟩ }
  lv_d := create_lv_d_table
  ps_f := create_ps_f_dict list_of_meters
  pv_a := create_pv_a_dict
  ss_a := create_ss_a_dict list_of_sys
  ss_b := create_ss_b_dict list_of_sys
  log := []

/-! ### The per-report handlers (the branches of the scan loop) -/

/-- `' '.join(l_list[0:3])` spliced back: `l_list[0:3] = [joined]`. -/
def joinFirst3 (l : List String) : List String :=
  String.intercalate " " (l.take 3) :: l.drop 3

/-- BEPS meter sub-branch (`parse-sim.py` lines 722-728):
`meter = m.group().split()[0]; current_type = l_list[1]`. -/
def bepsMeter (b : BepsSt) (line : String) : Except PErr BepsSt :=
  match matchMeter line with
  | some g => do
    let m0 ← listGet (pySplit g) 0
    let t1 ← listGet (pySplit line) 1
    pure { b with meter := some m0, current_type := some t1 }
  | none => pure b

/-- BEPS component sub-branch (`parse-sim.py` lines 730-734). -/
def bepsComp (b : BepsSt) (line : String) : Except PErr BepsSt :=
  if b.current_type = some "NATURAL-GAS" ∨ b.current_type = some "ELECTRICITY"
  then
    if matchesCompIndent line then do
      let ct ← reqName "current_type" b.current_type
      let mt ← reqName "meter" b.meter
      let comp_info := ct :: (pySplit line).drop 1
      let tbl ← b.components.write mt comp_info
      pure { b with components := tbl, current_type := none }
    else pure b
  else pure b

/-- BEPS site/source energy summary sub-branch (`parse-sim.py` lines
737-742): the first three tokens are joined in place, then tokens 1, 3
and 6 of the modified list are the row values. -/
def bepsSumm (b : BepsSt) (line : String) : Except PErr BepsSt :=
  if matchesSumm line then do
    let l2 := joinFirst3 (pySplit line)
    let current_summ ← listGet l2 0
    let v1 ← listGet l2 1
    let v3 ← listGet l2 3
    let v6 ← listGet l2 6
    let tbl ← b.summary.write current_summ [v1, v3, v6]
    pure { b with summary := tbl }
  else pure b

/-- BEPS unmet-hours sub-branch (`parse-sim.py` lines 745-751): append
the line's last token while fewer than 4 values are collected, then
commit the row whenever exactly 4 are held. -/
def bepsUnmet (b : BepsSt) (line : String) : Except PErr BepsSt :=
  if matchesUnmet line then
    (if b.unmet_info.length < 4 then do
        let lastTok ← pyLast (pySplit line)
        pure { b with unmet_info := b.unmet_info ++ [lastTok] }
      else pure (b : BepsSt)) >>= fun b =>
    if b.unmet_info.length = 4 then do
      let tbl ← b.unmet.write "Unmet" b.unmet_info
      pure { b with unmet := tbl }
    else pure b
  else pure b

/-- The BEPS branch (`parse-sim.py` lines 720-751): the four sequential
sub-branches.  Python mutates `l_list` in the summary sub-branch
(`l_list[0:3] = [...]`); the summary and unmet patterns are mutually
exclusive (`TOTAL` vs `P`/`H` at column 19), so recomputing the token
list from the line in the unmet sub-branch is equivalent. -/
def bepsStep (b : BepsSt) (line : String) : Except PErr BepsSt := do
  let b ← bepsMeter b line
  let b ← bepsComp b line
  let b ← bepsSumm b line
  bepsUnmet b line

/-- The LV-D branch (`parse-sim.py` lines 754-762). -/
def lvdStep (t : Table String) (line : String) : Except PErr (Table String) := do
  let l_list := pySplit line
  match surfSearch line with
  | some current_surface =>
    if current_surface = "ALL WALLS" then
      t.write current_surface (l_list.drop 2)
    else
      t.write current_surface (l_list.drop 1)
  | none => pure t

/-- The `measure_dict` literal of the PS-F branch. -/
def measure_dict (s : String) : String :=
  if s = "KWH" then "KWH"
  else if s = "MAX KW" then "Max KW"
  else if s = "PEAK ENDUSE" then "Peak End Use"
  else if s = "PEAK PCT" then "Peak Pct"
  else if s = "MAX THERM/HR" then "Max Therm/Hr"
  else if s = "THERM" then "Therm"
  else s

/-- The replacement `Month × Measure` index built inside the
`THERM` / `MAX THERM/HR` sub-branch (`parse-sim.py` lines 780-782). -/
def therm_index : List (String × String) :=
  listProd months12
    ["Therm", "Max Therm/Hr", "Day/Hour", "Peak End Use", "Peak Pct"]

/-- The PS-F branch (`parse-sim.py` lines 765-793).  Returns the updated
`current_month` and PS-F dict. -/
def psfStep (current_meter current_month : Option String)
    (d : List (String × Table (String × String))) (line : String) :
    Except PErr (Option String × List (String × Table (String × String))) := do
  let l_list := pySplit line
  let psf_l_list := split2sp line
  let current_month :=
    match matchMonth line with
    | some m => some m
    | none => current_month
  let h ← listGet psf_l_list 0
  if h = "KWH" ∨ h = "MAX KW" then do
    let mt ← reqName "current_meter" current_meter
    let tbl ← lookupE d mt
    let mo ← reqName "current_month" current_month
    let tbl ← tbl.write (mo, measure_dict h) (pySliceLast 13 l_list)
    pure (current_month, updateD d mt tbl)
  else if h = "THERM" ∨ h = "MAX THERM/HR" then do
    let mt ← reqName "current_meter" current_meter
    let tbl ← lookupE d mt
    let tbl ← tbl.setIndex therm_index
    let mo ← reqName "current_month" current_month
    let tbl ← tbl.write (mo, measure_dict h) (pySliceLast 13 l_list)
    pure (current_month, updateD d mt tbl)
  else if h = "PEAK ENDUSE" ∨ h = "PEAK PCT" then do
    -- no totals column in the source line: append one empty item
    let l_list := l_list ++ [""]
    let mt ← reqName "current_meter" current_meter
    let tbl ← lookupE d mt
    let mo ← reqName "current_month" current_month
    let tbl ← tbl.write (mo, measure_dict h) (pySliceLast 13 l_list)
    pure (current_month, updateD d mt tbl)
  else if h = "DAY/HR" then do
    -- psf_l_list[-1] = psf_l_list[-1].rstrip('\n')
    let lastTok ← pyLast psf_l_list
    let psf_l_list := psf_l_list.dropLast ++ [pyRstripNl lastTok]
    let mt ← reqName "current_meter" current_meter
    let tbl ← lookupE d mt
    let mo ← reqName "current_month" current_month
    let tbl ← tbl.write (mo, "Day/Hour") (pySliceLast 13 psf_l_list)
    pure (current_month, updateD d mt tbl)
  else
    pure (current_month, d)

/-- The SS-A branch (`parse-sim.py` lines 796-807). -/
def ssaStep (current_sys : Option String) (d : List (String × Table String))
    (line : String) : Except PErr (List (String × Table String)) := do
  let l_list := pySplit line
  let h ← listGet l_list 0
  if h ∈ months12 then do
    let sys ← reqName "current_sys" current_sys
    let tbl ← lookupE d sys
    let tbl ← tbl.write h (l_list.drop 1)
    pure (updateD d sys tbl)
  else if h = "TOTAL" then do
    let v1 ← listGet l_list 1
    let v2 ← listGet l_list 2
    let v3 ← listGet l_list 3
    let total_list :=
      [v1] ++ List.replicate 5 "" ++ [v2] ++ List.replicate 5 "" ++ [v3] ++ [""]
    let sys ← reqName "current_sys" current_sys
    let tbl ← lookupE d sys
    let tbl ← tbl.write h total_list
    pure (updateD d sys tbl)
  else if h = "MAX" then do
    let v1 ← listGet l_list 1
    let v2 ← listGet l_list 2
    let v3 ← listGet l_list 3
    let max_list :=
      List.replicate 5 "" ++ [v1] ++ List.replicate 5 "" ++ [v2] ++ [""] ++ [v3]
    let sys ← reqName "current_sys" current_sys
    let tbl ← lookupE d sys
    let tbl ← tbl.write h max_list
    pure (updateD d sys tbl)
  else pure d

/-- The SS-B branch (`parse-sim.py` lines 810-818). -/
def ssbStep (current_sys : Option String) (d : List (String × Table String))
    (line : String) : Except PErr (List (String × Table String)) := do
  let l_list := pySplit line
  let h ← listGet l_list 0
  if h ∈ months12 then do
    let sys ← reqName "current_sys" current_sys
    let tbl ← lookupE d sys
    let tbl ← tbl.write h (l_list.drop 1)
    pure (updateD d sys tbl)
  else if h = "TOTAL" then do
    let v1 ← listGet l_list 1
    let v2 ← listGet l_list 2
    let v3 ← listGet l_list 3
    let v4 ← listGet l_list 4
    let total_list := [v1, "", v2, "", v3, "", v4, ""]
    let sys ← reqName "current_sys" current_sys
    let tbl ← lookupE d sys
    let tbl ← tbl.write h total_list
    pure (updateD d sys tbl)
  else if h = "MAX" then do
    let v1 ← listGet l_list 1
    let v2 ← listGet l_list 2
    let v3 ← listGet l_list 3
    let v4 ← listGet l_list 4
    let max_list := ["", v1, "", v2, "", v3, "", v4]
    let sys ← reqName "current_sys" current_sys
    let tbl ← lookupE d sys
    let tbl ← tbl.write h max_list
    pure (updateD d sys tbl)
  else pure d

/-- Using a `current_plant_equip` still equal to `None` as a dict key:
`pv_a_dict[None]` raises `KeyError`. -/
def reqPlantKey (o : Option String) : Except PErr String :=
  match o with
  | some k => .ok k
  | none => .error .keyErrorNone

/-- `f_list[i + 1]` (the PV-A one-line lookahead): `IndexError` past the
end of the document. -/
def reqNextLine (o : Option String) : Except PErr String :=
  match o with
  | some l => .ok l
  | none => .error .indexError

/-- The equipment-class context update (`parse-sim.py` lines 822-824). -/
def pvaPlant (current_plant_equip : Option String) (line : String) :
    Option String :=
  match matchPlantEquip line with
  | some g => some g
  | none => current_plant_equip

/-- The PV-A branch (`parse-sim.py` lines 821-831).  `next?` is
`f_list[i + 1]` (the explicit one-line lookahead); its absence raises
`IndexError`. -/
def pvaStep (current_plant_equip : Option String)
    (d : List (String × Table String)) (line : String) (next? : Option String) :
    Except PErr (Option String × List (String × Table String)) :=
  if startsWord line ∧ ¬ containsStr line "REPORT-" then
    match matchUpToGap line with
    | some equip_name => do
      let key ← reqPlantKey (pvaPlant current_plant_equip line)
      let tbl ← lookupE d key
      let nxt ← reqNextLine next?
      let tbl ← tbl.write equip_name (split2sp (pyStrip nxt))
      pure (pvaPlant current_plant_equip line, updateD d key tbl)
    | none => pure (pvaPlant current_plant_equip line, d)
  else pure (pvaPlant current_plant_equip line, d)

/-- The FAN-row token merge (`parse-sim.py` lines 848-849): when the row
carries more than 11 values, `l_list[9:11] = [''.join(l_list[9:11])]`. -/
def fanAdjust (l_list : List String) : List String :=
  if (l_list.drop 1).length > 11 then
    l_list.take 9 ++ [String.join ((l_list.drop 9).take 2)] ++ l_list.drop 11
  else l_list

/-- SV-A section keyword check (`parse-sim.py` lines 836-837). -/
def svaSection (v : SvaSt) (line : String) : SvaSt :=
  match pySplit line with
  | t :: _ =>
    if t = "SYSTEM" ∨ t = "FAN" ∨ t = "ZONE" then
      { v with current_sv_a_section := some t }
    else v
  | [] => v

/-- SV-A SYSTEM sub-branch (`parse-sim.py` lines 839-842). -/
def svaSystem (system_name : Option String) (v : SvaSt) (line : String) :
    Except PErr SvaSt :=
  if v.current_sv_a_section = some "SYSTEM" ∧ startsWord line then do
    let tbl ← v.systems.write system_name (pySplit line)
    pure { v with systems := tbl }
  else pure v

/-- SV-A FAN sub-branch (`parse-sim.py` lines 844-850). -/
def svaFan (system_name : Option String) (v : SvaSt) (line : String) :
    Except PErr SvaSt :=
  if v.current_sv_a_section = some "FAN" ∧ matchesFanIndent line then do
    let l_list := fanAdjust (pySplit line)
    let fanType ← listGet l_list 0
    let tbl ← v.fans.write (system_name, fanType) (l_list.drop 1)
    pure { v with fans := tbl }
  else pure v

/-- SV-A ZONE sub-branch (`parse-sim.py` lines 852-860): the write sits
in a bare `try/except` that prints the line number and the raw line and
continues, so this sub-branch is total; the returned list is what the
`except` branch prints. -/
def svaZone (system_name : Option String) (v : SvaSt) (i : Nat)
    (line : String) : SvaSt × List String :=
  if v.current_sv_a_section = some "ZONE" ∧ startsWord line then
    match (do
        let z0 ← listGet (split2sp (pyStrip line)) 0
        v.zones.write (system_name, z0) ((split2sp (pyStrip line)).drop 1) :
        Except PErr (Table (Option String × String))) with
    | .ok tbl => ({ v with zones := tbl }, [])
    | .error _ => (v, [toString i, line])
  else (v, [])

/-- The SV-A branch (`parse-sim.py` lines 834-860): the four sequential
sub-blocks. -/
def svaStep (system_name : Option String) (v : SvaSt) (i : Nat)
    (line : String) : Except PErr (SvaSt × List String) := do
  let v := svaSection v line
  let v ← svaSystem system_name v line
  let v ← svaFan system_name v line
  pure (svaZone system_name v i line)

/-! ### The dispatcher: section headers and branch routing -/

/-- Handling of a section-header line (`parse-sim.py` lines 684-717):
`current_report` is set from the second token; for SV-A a failed name
capture is only printed (the scan continues), while for PS-F / SS-A /
SS-B it raises. -/
def headerStep (s : St) (i : Nat) (line : String) (t1 : String) :
    Except PErr St := do
  let s := { s with current_report := some t1 }
  if t1 = "SV-A" then
    match headerCapture svaHeaderLit line with
    | some n => pure { s with system_name := some n }
    | none =>
      pure { s with log := s.log ++
        ["Error, on line " ++ toString i ++
         " couldn't find the name for the system. Here is the line:", line] }
  else if t1 = "PS-F" then
    match headerCapture psfHeaderLit line with
    | some n => pure { s with current_meter := some n }
    | none => Except.error (PErr.headerCapture "PS-F")
  else if t1 = "SS-A" then
    match headerCapture ssaHeaderLit line with
    | some n => pure { s with current_sys := some n }
    | none => Except.error (PErr.headerCapture "SS-A")
  else if t1 = "SS-B" then
    match headerCapture ssbHeaderLit line with
    | some n => pure { s with current_sys := some n }
    | none => Except.error (PErr.headerCapture "SS-B")
  else pure s

/-- The seven sequential `if current_report == ...` blocks of the scan
loop.  They are written in the source as consecutive `if`s over the same
single-valued `current_report`, hence mutually exclusive; the embedding
dispatches on the value.  All blocks but PV-A are guarded by
`len(l_list) > 0`. -/
def dispatch (s : St) (i : Nat) (line : String) (next? : Option String) :
    Except PErr St :=
  match s.current_report with
  | some "BEPS" =>
    if (pySplit line).length > 0 then do
      let b ← bepsStep s.beps line
      pure { s with beps := b }
    else pure s
  | some "LV-D" =>
    if (pySplit line).length > 0 then do
      let t ← lvdStep s.lv_d line
      pure { s with lv_d := t }
    else pure s
  | some "PS-F" =>
    if (pySplit line).length > 0 then do
      let r ← psfStep s.current_meter s.current_month s.ps_f line
      pure { s with current_month := r.1, ps_f := r.2 }
    else pure s
  | some "SS-A" =>
    if (pySplit line).length > 0 then do
      let d ← ssaStep s.current_sys s.ss_a line
      pure { s with ss_a := d }
    else pure s
  | some "SS-B" =>
    if (pySplit line).length > 0 then do
      let d ← ssbStep s.current_sys s.ss_b line
      pure { s with ss_b := d }
    else pure s
  | some "PV-A" => do
    let r ← pvaStep s.current_plant_equip s.pv_a line next?
    pure { s with current_plant_equip := r.1, pv_a := r.2 }
  | some "SV-A" =>
    if (pySplit line).length > 0 then do
      let r ← svaStep s.system_name s.sva i line
      pure { s with sva := r.1, log := s.log ++ r.2 }
    else pure s
  | _ => pure s

/-- One iteration of the scan loop: a line whose first two whitespace
tokens start with `REPORT-` is a section header (and is then skipped via
`continue`); otherwise it is routed by `current_report`. -/
def lineStep (s : St) (i : Nat) (line : String) (next? : Option String) :
    Except PErr St :=
  match pySplit line with
  | t0 :: t1 :: _ =>
    if t0 = "REPORT-" then headerStep s i line t1
    else dispatch s i line next?
  | _ => dispatch s i line next?

/-- The scan loop over the remaining lines (`i` is the current index in
`f_list`; the head of the tail is `f_list[i + 1]`). -/
def runLines (s : St) (i : Nat) : List String → Except PErr St
  | [] => .ok s
  | line :: rest => do
    let s' ← lineStep s i line rest.head?
    runLines s' (i + 1) rest

/-- `parse_sim` up to the end of the scan loop: the two header pre-scans,
table allocation, and the single forward pass.  (The trailing
`post_process_*` calls and all CSV writing are the excluded output side;
the post-processing computations are embedded separately below.) -/
def parse_sim (f_list : List String) : Except PErr St :=
  let list_of_meters :=
    find_in_header f_list (headerCapture psfHeaderLit) "PS-F"
  let list_of_sys :=
    find_in_header f_list (headerCapture ssaHeaderLit) "SS-A"
  runLines (init_st list_of_meters list_of_sys) 0 f_list

/-- The batch loop of `multi_sim` (`parse-sim.py` lines 618-621): plain
`for file in filelist: parse_sim(file)` with no `try/except`, so the
first document whose parse raises stops the whole batch.  (The
interactive prompt and globbing are the excluded front end; only the
propagation structure is modelled.) -/
def runBatch (docs : List (List String)) : Except PErr (List St) :=
  docs.mapM parse_sim

/-! ### Numeric coercion (`pd.to_numeric`) -/

/-- Digits folded to a natural number. -/
def digitsVal (cs : List Char) : Nat :=
  cs.foldl (fun n c => 10 * n + (c.toNat - '0'.toNat)) 0

/-- The decimal-literal grammar accepted by the embedding of
`pd.to_numeric`: optional sign, then digits with at most one decimal
point and at least one digit.  (Exponent forms never occur in SIM
values.) -/
def toNumeric (s : String) : Option ℚ :=
  let cs := s.data
  let neg : Bool := cs.head? = some '-'
  let cs := if cs.head? = some '-' ∨ cs.head? = some '+' then cs.drop 1 else cs
  if cs ≠ [] ∧ cs.all (fun c => c.isDigit || c = '.') ∧
      cs.count '.' ≤ 1 ∧ cs.any Char.isDigit then
    let ip := cs.takeWhile (fun c => c ≠ '.')
    let fp := (cs.dropWhile (fun c => c ≠ '.')).drop 1
    let n : Nat := digitsVal ip * 10 ^ fp.length + digitsVal fp
    some (mkRat (if neg then -(n : Int) else (n : Int)) (10 ^ fp.length))
  else none

/-- Can a cell survive `pd.to_numeric`?  `NaN` stays `NaN`; an already
numeric cell stays; a string must parse. -/
def cellParses : Cell → Bool
  | .nan => true
  | .num _ => true
  | .val s => (toNumeric s).isSome

/-- The result of coercing one cell (meaningful when `cellParses`). -/
def coerceCell : Cell → Cell
  | .nan => .nan
  | .num q => .num q
  | .val s =>
    match toNumeric s with
    | some q => .num q
    | none => .val s

/-- Strict `pd.to_numeric` over one whole column (`ValueError` if any
entry fails to parse), identified by its position. -/
def colAllParses {κ : Type} (t : Table κ) (j : Nat) : Bool :=
  t.rows.all (fun p =>
    match p.2.get? j with
    | some c => cellParses c
    | none => true)

/-- The positions of the named columns (pandas selects columns by name;
duplicate names select every matching position, as in the SS-A frame). -/
def colIdxs {κ : Type} (t : Table κ) (names : List String) : List Nat :=
  (List.range t.cols.length).filter (fun j =>
    match t.cols.get? j with
    | some n => decide (n ∈ names)
    | none => false)

/-- `df[names] = df[names].apply(lambda x: pd.to_numeric(x))`: strict
coercion of the selected columns; raises `ValueError` when any selected
cell fails. -/
def strictCoerceCols {κ : Type} (t : Table κ) (names : List String) :
    Except PErr (Table κ) :=
  let js := colIdxs t names
  if js.all (fun j => colAllParses t j) then
    .ok { t with rows := t.rows.map (fun p =>
      (p.1, (List.range p.2.length).map (fun j =>
        if j ∈ js then coerceCell (p.2.getD j Cell.nan)
        else p.2.getD j Cell.nan))) }
  else .error .valueError

/-- `df.apply(lambda x: pd.to_numeric(x))`: strict coercion of every
column. -/
def strictCoerceAll {κ : Type} (t : Table κ) : Except PErr (Table κ) :=
  strictCoerceCols t t.cols

/-- `df.apply(lambda x: pd.to_numeric(x, errors='ignore'))`:
per-column all-or-nothing — a column in which every entry parses is
coerced wholesale, a column with any failing entry is returned entirely
unchanged; never an error. -/
def ignoreCoerce {κ : Type} (t : Table κ) : Table κ :=
  { t with rows := t.rows.map (fun p =>
      (p.1, (List.range p.2.length).map (fun j =>
        if colAllParses t j then coerceCell (p.2.getD j Cell.nan)
        else p.2.getD j Cell.nan))) }

/-! ### Post-processing -/

/-- Numeric value of a cell if it has one. -/
def Cell.toQ : Cell → Option ℚ
  | .num q => some q
  | _ => none

/-- The cell of the named column in a row of table `t` (first matching
column). -/
def cellAt {κ : Type} (t : Table κ) (name : String) (r : List Cell) : Cell :=
  match (List.range t.cols.length).find? (fun j =>
    match t.cols.get? j with
    | some n => decide (n = name)
    | none => false) with
  | some j => r.getD j Cell.nan
  | none => Cell.nan

/-- Lift a rational function to cells: any non-numeric operand yields
`NaN`, as pandas arithmetic with `NaN` does. -/
def cellOp (f : ℚ → ℚ → ℚ) (a b : Cell) : Cell :=
  match a.toQ, b.toQ with
  | some x, some y => .num (f x y)
  | _, _ => .nan

def cellOp1 (f : ℚ → ℚ) (a : Cell) : Cell :=
  match a.toQ with
  | some x => .num (f x)
  | _ => .nan

/-- `df[new] = f(rows)`: append a derived column. -/
def addCol {κ : Type} (t : Table κ) (name : String) (f : List Cell → Cell) :
    Table κ :=
  { cols := t.cols ++ [name]
    rows := t.rows.map (fun p => (p.1, p.2 ++ [f p.2])) }

/-- Does the `Equipment Type` cell contain the heating-water marker
(`df_primary['Equipment Type'].str.contains('HW')`)?  A non-string cell
gives a non-boolean mask entry, which `df.loc[mask]` rejects; the caller
checks that separately. -/
def isHWRow {κ : Type} (t : Table κ) (r : List Cell) : Bool :=
  match cellAt t "Equipment Type" r with
  | .val s => containsStr s "HW"
  | _ => false

/-- Is the `Equipment Type` cell a string (so that the `str.contains`
mask entry is a proper boolean)? -/
def typeIsStr {κ : Type} (t : Table κ) (r : List Cell) : Bool :=
  match cellAt t "Equipment Type" r with
  | .val _ => true
  | _ => false

/-- `post_process_pv_a` (`parse-sim.py` lines 121-206) without the CSV
writing.  Note the source's quirk on `CIRCULATION LOOPS`: the coerced
frame is bound to a local and dropped, so the dict keeps the raw strings
— but a coercion failure still raises. -/
def post_process_pv_a (d : List (String × Table String)) :
    Except PErr (List (String × Table String)) := do
  let df_circ ← lookupE d "CIRCULATION LOOPS"
  let _ ← strictCoerceAll df_circ
  -- pumps: coerce then W/GPM = 1000 * Power / Flow
  let df_pumps ← lookupE d "PUMPS"
  let df_pumps ← strictCoerceCols df_pumps
    ["Flow (GPM)", "Head (ft)", "Head Setpoint (ft)", "Power (kW)",
     "Mech. Eff", "Motor Eff"]
  let df_pumps := addCol df_pumps "W/GPM" (fun r =>
    cellOp (fun p f => 1000 * p / f)
      (cellAt df_pumps "Power (kW)" r) (cellAt df_pumps "Flow (GPM)" r))
  let d := updateD d "PUMPS" df_pumps
  -- cooling towers
  let df_ct ← lookupE d "COOLING TOWERS"
  let df_ct ← strictCoerceCols df_ct
    ["Cap. (mmBTU/hr)", "Flow (GPM)", "Nb of Cells",
     "Fan Power per Cell (kW)", "Spray Power per Cell (kW)", "Aux. (kW)"]
  let df_ct := addCol df_ct "Fan W/GPM" (fun r =>
    cellOp (fun pn f => 1000 * pn / f)
      (cellOp (fun p n => p * n) (cellAt df_ct "Fan Power per Cell (kW)" r)
        (cellAt df_ct "Nb of Cells" r))
      (cellAt df_ct "Flow (GPM)" r))
  let df_ct := addCol df_ct "GPM/ton" (fun r =>
    cellOp (fun f c => f * 12 / (1000 * c))
      (cellAt df_ct "Flow (GPM)" r) (cellAt df_ct "Cap. (mmBTU/hr)" r))
  let d := updateD d "COOLING TOWERS" df_ct
  -- primary equipment: coerce, then split into boilers and chillers
  let df_primary ← lookupE d "PRIMARY EQUIPMENT"
  let df_primary ← strictCoerceCols df_primary
    ["Capacity (mmBTU/hr)", "Flow (GPM)", "EIR", "HIR", "Aux. (kW)"]
  if df_primary.rows.all (fun p => typeIsStr df_primary p.2) then do
    let df_boilers : Table String :=
      { df_primary with rows := df_primary.rows.filter (fun p =>
          isHWRow df_primary p.2) }
    let df_chillers : Table String :=
      { df_primary with rows := df_primary.rows.filter (fun p =>
          ! isHWRow df_primary p.2) }
    let d := removeD d "PRIMARY EQUIPMENT"
    let df_boilers := addCol df_boilers "Thermal Eff" (fun r =>
      cellOp1 (fun h => 1 / h) (cellAt df_primary "HIR" r))
    let d := d ++ [("BOILERS", df_boilers)]
    let df_chillers := addCol df_chillers "COP" (fun r =>
      cellOp1 (fun e => 1 / e) (cellAt df_primary "EIR" r))
    let df_chillers := addCol df_chillers "kW/ton" (fun r =>
      cellOp1 (fun cop => 12 / (cop * (3412 / 1000 : ℚ)))
        (cellAt df_chillers "COP" r))
    let df_chillers := addCol df_chillers "GPM/ton" (fun r =>
      cellOp (fun f c => f * 12 / (1000 * c))
        (cellAt df_primary "Flow (GPM)" r)
        (cellAt df_primary "Capacity (mmBTU/hr)" r))
    let d := d ++ [("CHILLERS", df_chillers)]
    -- DW-HEATERS
    let df_dhw ← lookupE d "DW-HEATERS"
    let df_dhw ← strictCoerceCols df_dhw
      ["Cap. (mmBTU/hr)", "Flow (GPM)", "EIR", "HIR", "Auxiliary (kW)",
       "Tank (Gal)", "Tank UA (BTU/h.ft)"]
    let df_dhw := addCol df_dhw "Thermal Eff" (fun r =>
      cellOp1 (fun h => 1 / h) (cellAt df_dhw "HIR" r))
    pure (updateD d "DW-HEATERS" df_dhw)
  else Except.error PErr.valueError

/-- The numeric pass of `post_process_ps_f` (`parse-sim.py` lines
451-455): every meter's frame through `pd.to_numeric(x, errors='ignore')`
column by column.  Total: `errors='ignore'` never raises. -/
def post_process_ps_f (d : List (String × Table (String × String))) :
    List (String × Table (String × String)) :=
  d.map (fun p => (p.1, ignoreCoerce p.2))

/-! ### Spec-only definitions

Definitions in this block follow the specification's words rather than
code under `src/`; each one says so in its doc comment. -/

/-- First-occurrence de-duplication: the spec's "ordered, de-duplicated
list ... in order of first appearance" (spec §4.1 / §8), written
independently of `find_in_header` for the refinement theorem. -/
def dedupFirst : List String → List String
  | [] => []
  | x :: xs => x :: dedupFirst (xs.filter (fun y => decide (y ≠ x)))
termination_by l => l.length
decreasing_by
  simp only [List.length_cons]
  exact Nat.lt_succ_of_le (List.length_filter_le _ _)

/-- The names captured by the header pre-scan before de-duplication: one
entry per section-header line of the given report code whose capture
succeeds, in document order. -/
def capturedNames (f_list : List String) (pattern : String → Option String)
    (report : String) : List String :=
  f_list.filterMap (fun line =>
    match pySplit line with
    | t0 :: t1 :: _ =>
      if t0 = "REPORT-" ∧ t1 = report then pattern line else none
    | _ => none)

/-- Modelled from the spec (§4.5, §8): the PS-F total-delimiter handler —
the reaction to the run-of-`=` token — is not part of the two scripts
under `src/` (only the pre-allocated `TOTAL` index slot in `pim.py`'s
`create_ps_f_dict` witnesses it); per the spec it rewrites the month-axis
slot 3 positions from the end of the current meter's table from its
placeholder month name to `TOTAL`. -/
def ps_f_total_rename (axis : List String) : List String :=
  axis.set (axis.length - 3) "TOTAL"

/-- Modelled from the spec (§4.5): applying the total-delimiter rename to
a month-axis table: the row labels are rewritten in place
(`df.index = ...`-style, positional). -/
def renameTotalSlot (t : Table String) : Except PErr (Table String) :=
  t.setIndex (ps_f_total_rename t.keys)

/-- The spec's claimed unmet-hours extraction (§4.3: "the last token,
with any trailing marker character stripped"), for comparison with what
the code stores; the marker is the `%` sign carried by the percent
rows. -/
def spec_strip_marker (s : String) : String :=
  String.mk ((s.data.reverse.dropWhile (fun c => c = '%')).reverse)

/-! ### Static description of the BEPS unmet-hours lines -/

/-- Is the line a section-header line (first two whitespace tokens
`REPORT-` and a code)?  Such a line is consumed by the dispatcher's
header branch. -/
def isHeaderLine (line : String) : Bool :=
  match pySplit line with
  | t0 :: _ :: _ => t0 = "REPORT-"
  | _ => false

/-- The report code active after processing a line (header lines update
it; other lines keep it). -/
def reportAfter (r : Option String) (line : String) : Option String :=
  match pySplit line with
  | _ :: t1 :: _ => if isHeaderLine line then some t1 else r
  | _ => r

/-- The unmet-hours source lines of a document tail, given the report
code active on entry: the non-header, non-blank lines matching
`unmet_pattern` while BEPS is active, in order.  This is the static
counterpart of the scan used to state the unmet-hours claims. -/
def unmetLines (r : Option String) : List String → List String
  | [] => []
  | line :: rest =>
    if ¬ isHeaderLine line ∧ r = some "BEPS" ∧ pySplit line ≠ [] ∧
        matchesUnmet line then
      line :: unmetLines (reportAfter r line) rest
    else unmetLines (reportAfter r line) rest

/-- The value a qualifying unmet line contributes: its last whitespace
token (as stored by the code, unstripped). -/
def unmetTok (line : String) : String := (pySplit line).getLastD ""

/-- The effect of one qualifying unmet line on the accumulator and the
unmet table: append the last token while fewer than 4 values are held,
commit the row whenever exactly 4 are held. -/
def unmetStep (u : List String) (t : Table String) (line : String) :
    List String × Table String :=
  let u' := if u.length < 4 then u ++ [unmetTok line] else u
  (u',
   if u'.length = 4 then
     { t with rows := upsertRow t.rows "Unmet" (u'.map Cell.val) }
   else t)

/-- Pure simulation of the effect of the scan on the unmet-hours
accumulator and table (`parse-sim.py` lines 745-751), used to relate the
full parser state to the static `unmetLines` description. -/
def unmetSim (r : Option String) (u : List String) (t : Table String) :
    List String → List String × Table String
  | [] => (u, t)
  | line :: rest =>
    if ¬ isHeaderLine line ∧ r = some "BEPS" ∧ pySplit line ≠ [] ∧
        matchesUnmet line then
      unmetSim (reportAfter r line) (unmetStep u t line).1
        (unmetStep u t line).2 rest
    else unmetSim (reportAfter r line) u t rest

/-! ### Well-formedness: the row-arity invariant -/

/-- Every table of a dict is well-formed. -/
def DictWF {κ : Type} (d : List (String × Table κ)) : Prop :=
  ∀ p ∈ d, Table.WF p.2

/-- The three BEPS frames are well-formed. -/
def BepsSt.WF (b : BepsSt) : Prop :=
  b.components.WF ∧ b.summary.WF ∧ b.unmet.WF

/-- The three SV-A frames are well-formed. -/
def SvaSt.WF (v : SvaSt) : Prop :=
  v.systems.WF ∧ v.fans.WF ∧ v.zones.WF

/-- Every frame of every report is well-formed: each committed (or
preallocated) row has exactly one value per schema column. -/
def St.WF (s : St) : Prop :=
  s.beps.WF ∧ s.sva.WF ∧ s.lv_d.WF ∧ DictWF s.ps_f ∧ DictWF s.pv_a ∧
    DictWF s.ss_a ∧ DictWF s.ss_b

/-! ### Concrete documents and tables used by witnesses and counterexamples -/

/-- A document whose first line is an SV-A section-header line (first two
tokens `REPORT-` and `SV-A`) failing the name capture, followed by a
valid PS-F section that commits a row. -/
def doc_sva_bad_header : List String :=
  ["REPORT- SV-A System Design Parameters\n",
   "REPORT- PS-F Energy End-Use Summary for  MTR-1  WEATHER FILE\n",
   "JAN\n",
   "KWH          1     2     3     4     5     6     7     8     9    10    11    12    13\n"]

/-- A document with a BEPS section containing exactly the four qualifying
unmet-hours lines; the first line's last token carries a trailing `%`
marker. -/
def doc_beps_unmet : List String :=
  ["REPORT- BEPS Building Energy Performance x\n",
   "                   PERCENT OF HOURS ANY SYSTEM ZONE OUTSIDE OF THROTTLING RANGE = 1.6%\n",
   "                   PERCENT OF HOURS ANY PLANT LOAD NOT SATISFIED = 0.\n",
   "                   HOURS ANY ZONE ABOVE COOLING THROTTLING RANGE = 119\n",
   "                   HOURS ANY ZONE BELOW HEATING THROTTLING RANGE = 871\n"]

/-- A document whose SS-B section-header names a system (`SYS2`) that no
SS-A header declares, followed by an SS-B month data line: the write hits
an entity absent from the pre-scanned registry. -/
def doc_ssb_unregistered : List String :=
  ["REPORT- SS-B System Loads Summary for  SYS2  WEATHER FILE\n",
   "JAN  1  2  3  4  5  6  7  8\n"]

/-- A PRIMARY EQUIPMENT frame holding one chiller row with `EIR = 0.25`
and one boiler row (equipment type containing `HW`), as committed by the
PV-A handler. -/
def primary_example : Table String :=
  ⟨primary_info_cols,
   [("CHLR-1",
     [Cell.val "OPEN-CENT-CHLR", Cell.val "CHW-LOOP", Cell.val "1.0",
      Cell.val "100.0", Cell.val "0.25", Cell.val "0.0", Cell.val "0.0"]),
    ("BOILER-1",
     [Cell.val "HW-BOILER", Cell.val "HW-LOOP", Cell.val "2.0",
      Cell.val "50.0", Cell.val "0.0", Cell.val "1.25", Cell.val "0.0"])]⟩

/-- The PV-A dict right after a scan that committed `primary_example`. -/
def pva_dict_example : List (String × Table String) :=
  updateD create_pv_a_dict "PRIMARY EQUIPMENT" primary_example

/-- A CIRCULATION LOOPS frame holding one row whose first cell does not
parse as a number. -/
def circ_bad : Table String :=
  ⟨loop_info_cols,
   [("LOOP-1", Cell.val "abc" :: List.replicate 9 Cell.nan)]⟩

/-- The PV-A dict with the unparseable circulation-loop row. -/
def pva_dict_bad : List (String × Table String) :=
  updateD create_pv_a_dict "CIRCULATION LOOPS" circ_bad

/-- A one-column PS-F-style frame with one cleanly numeric value and one
unparseable value in the same column. -/
def mixed_col_tbl : Table (String × String) :=
  ⟨["Lights"],
   [(("JAN", "KWH"), [Cell.val "1.5"]), (("FEB", "KWH"), [Cell.val "abc"])]⟩

/-- A concrete SV-A state sitting in the FAN section with empty frames. -/
def sva_in_fan : SvaSt :=
  { current_sv_a_section := some "FAN"
    systems := ⟨system_info_cols, []⟩
    fans := ⟨fan_info_cols, []⟩
    zones := ⟨zone_info_cols, []⟩ }

/-- A FAN data line carrying 13 values after the fan type: two more than
the 11 schema columns. -/
def fan_line_13 : String :=
  "  SUPPLY-FAN  1  2  3  4  5  6  7  8  9  10  11  12  13\n"

/-- A THERM measure line with 13 trailing values. -/
def therm_line : String :=
  "THERM        1     2     3     4     5     6     7     8     9    10    11    12    14\n"

/-- The row of a table at a label, if present. -/
def rowAt {κ : Type} [DecidableEq κ] (t : Table κ) (k : κ) :
    Option (List Cell) :=
  (t.rows.find? (fun p => decide (p.1 = k))).map (fun p => p.2)

/-- A month-axis table as the PS-F total-delimiter handler sees it: one
row per month of the placeholder month axis. -/
def month_axis_tbl : Table String :=
  ⟨["Value"], months12.map (fun m => (m, [Cell.nan]))⟩

/-- `month_axis_tbl` after the total-delimiter rename: the slot 3
positions from the end (`OCT`) now reads `TOTAL`. -/
def c3_renamed : Table String :=
  ⟨["Value"],
   [("JAN", [Cell.nan]), ("FEB", [Cell.nan]), ("MAR", [Cell.nan]),
    ("APR", [Cell.nan]), ("MAY", [Cell.nan]), ("JUN", [Cell.nan]),
    ("JUL", [Cell.nan]), ("AUG", [Cell.nan]), ("SEP", [Cell.nan]),
    ("TOTAL", [Cell.nan]), ("NOV", [Cell.nan]), ("DEC", [Cell.nan])]⟩

/-- `c3_renamed` after a `TOTAL` row write: the renamed slot holds the
written value, no row was appended. -/
def c3_written : Table String :=
  ⟨["Value"],
   [("JAN", [Cell.nan]), ("FEB", [Cell.nan]), ("MAR", [Cell.nan]),
    ("APR", [Cell.nan]), ("MAY", [Cell.nan]), ("JUN", [Cell.nan]),
    ("JUL", [Cell.nan]), ("AUG", [Cell.nan]), ("SEP", [Cell.nan]),
    ("TOTAL", [Cell.val "42"]), ("NOV", [Cell.nan]), ("DEC", [Cell.nan])]⟩

/-- The pre-allocated 60-row NaN frame of a single PS-F meter (the
table `create_ps_f_dict` builds per meter). -/
def c10_tbl : Table (String × String) :=
  ⟨ps_f_component_cols,
   ps_f_index.map (fun k =>
     (k, List.replicate ps_f_component_cols.length Cell.nan))⟩

/-- The fields of `therm_line` after the first, under the
run-of-2+-whitespace split. -/
def c10_rest : List String :=
  ["1", "2", "3", "4", "5", "6", "7", "8", "9", "10", "11", "12", "14\n"]

/-- `primary_example` after the strict coercion of its five numeric
columns (cells written in `mkRat` normal form). -/
def c6_pc : Table String :=
  ⟨primary_info_cols,
   [("CHLR-1",
     [Cell.val "OPEN-CENT-CHLR", Cell.val "CHW-LOOP", Cell.num (mkRat 1 1),
      Cell.num (mkRat 100 1), Cell.num (mkRat 1 4), Cell.num (mkRat 0 1),
      Cell.num (mkRat 0 1)]),
    ("BOILER-1",
     [Cell.val "HW-BOILER", Cell.val "HW-LOOP", Cell.num (mkRat 2 1),
      Cell.num (mkRat 50 1), Cell.num (mkRat 0 1), Cell.num (mkRat 5 4),
      Cell.num (mkRat 0 1)])]⟩

/-- The `CHILLERS` table `post_process_pv_a` derives from `c6_pc` (the
coerced `primary_example`): the non-`HW` rows with the three derived
columns appended. -/
def c9_chl : Table String :=
  addCol (addCol (addCol
    { c6_pc with rows := c6_pc.rows.filter (fun p => ! isHWRow c6_pc p.2) }
    "COP" (fun r => cellOp1 (fun e => 1 / e) (cellAt c6_pc "EIR" r)))
    "kW/ton" (fun r => cellOp1 (fun cop => 12 / (cop * (3412 / 1000 : ℚ)))
      (cellAt (addCol
        { c6_pc with rows := c6_pc.rows.filter (fun p => ! isHWRow c6_pc p.2) }
        "COP" (fun r => cellOp1 (fun e => 1 / e) (cellAt c6_pc "EIR" r)))
        "COP" r)))
    "GPM/ton" (fun r => cellOp (fun f c => f * 12 / (1000 * c))
      (cellAt c6_pc "Flow (GPM)" r)
      (cellAt c6_pc "Capacity (mmBTU/hr)" r))

/-! ## Theorems -/

/-! ### Table-operation lemmas -/

theorem upsertRow_wf {κ : Type} [DecidableEq κ]
    {rows : List (κ × List Cell)} {k : κ} {v : List Cell} {n : Nat}
    (hr : ∀ p ∈ rows, (p.2 : List Cell).length = n) (hv : v.length = n) :
    ∀ p ∈ upsertRow rows k v, (p.2 : List Cell).length = n := by
  intro p hp
  unfold upsertRow at hp
  split at hp
  · rcases List.mem_map.mp hp with ⟨q, hq, hqe⟩
    by_cases h : q.1 = k
    · simp only [h, if_pos rfl] at hqe
      rw [← hqe]
      exact hv
    · simp only [if_neg h] at hqe
      rw [← hqe]
      exact hr q hq
  · rcases List.mem_append.mp hp with h | h
    · exact hr p h
    · simp only [List.mem_singleton] at h
      rw [h]
      exact hv

theorem write_cols {κ : Type} [DecidableEq κ] {t t' : Table κ} {k : κ}
    {vs : List String} (h : t.write k vs = .ok t') : t'.cols = t.cols := by
  unfold Table.write at h
  split at h
  · cases h; rfl
  · cases h

theorem write_wf {κ : Type} [DecidableEq κ] {t t' : Table κ} {k : κ}
    {vs : List String} (h : t.write k vs = .ok t') (hw : t.WF) : t'.WF := by
  unfold Table.write at h
  split at h
  · rename_i hlen
    cases h
    intro p hp
    exact upsertRow_wf hw (by simpa using hlen) p hp
  · cases h

theorem setIndex_cols {κ : Type} {t t' : Table κ} {ks : List κ}
    (h : t.setIndex ks = .ok t') : t'.cols = t.cols := by
  unfold Table.setIndex at h
  split at h
  · cases h; rfl
  · cases h

theorem setIndex_wf {κ : Type} {t t' : Table κ} {ks : List κ}
    (h : t.setIndex ks = .ok t') (hw : t.WF) : t'.WF := by
  unfold Table.setIndex at h
  split at h
  · cases h
    intro p hp
    rcases p with ⟨a, b⟩
    obtain ⟨-, h2⟩ := List.of_mem_zip hp
    rcases List.mem_map.mp h2 with ⟨q, hq, hqe⟩
    simp only
    rw [← hqe]
    exact hw q hq
  · cases h

theorem lookupD_cons {α : Type} (p : String × α) (rest : List (String × α))
    (k : String) :
    lookupD (p :: rest) k = if p.1 = k then some p.2 else lookupD rest k := by
  by_cases hp : p.1 = k
  · simp [lookupD, List.find?_cons_of_pos, hp]
  · simp [lookupD, List.find?_cons_of_neg, hp]

theorem updateD_cons {α : Type} (p : String × α) (rest : List (String × α))
    (k : String) (v : α) :
    updateD (p :: rest) k v =
      (if p.1 = k then (k, v) else p) :: updateD rest k v := by
  simp [updateD]

theorem lookupD_updateD_self {α : Type} (d : List (String × α)) (k : String)
    (v : α) (h : (lookupD d k).isSome) :
    lookupD (updateD d k v) k = some v := by
  induction d with
  | nil => simp [lookupD] at h
  | cons p rest ih =>
    rw [updateD_cons]
    by_cases hp : p.1 = k
    · rw [if_pos hp, lookupD_cons]
      simp
    · rw [if_neg hp, lookupD_cons, if_neg hp]
      rw [lookupD_cons, if_neg hp] at h
      exact ih h

theorem lookupD_updateD_other {α : Type} (d : List (String × α))
    (k k' : String) (v : α) (h : k' ≠ k) :
    lookupD (updateD d k v) k' = lookupD d k' := by
  induction d with
  | nil => simp [lookupD, updateD]
  | cons p rest ih =>
    rw [updateD_cons]
    by_cases hp : p.1 = k
    · have h1 : ¬ (k = k') := fun hk => h hk.symm
      have h2 : ¬ (p.1 = k') := by rw [hp]; exact h1
      rw [if_pos hp, lookupD_cons, lookupD_cons, if_neg h1, if_neg h2]
      exact ih
    · rw [if_neg hp, lookupD_cons, lookupD_cons]
      by_cases hpk : p.1 = k'
      · simp [hpk]
      · rw [if_neg hpk, if_neg hpk]
        exact ih

theorem keysD_updateD {α : Type} (d : List (String × α)) (k : String) (v : α) :
    keysD (updateD d k v) = keysD d := by
  induction d with
  | nil => rfl
  | cons p rest ih =>
    simp only [keysD, updateD, List.map_cons] at *
    by_cases hp : p.1 = k
    · simp [hp, ih]
    · simp [hp, ih]

theorem DictWF_updateD {κ : Type} {d : List (String × Table κ)} {k : String}
    {t : Table κ} (hd : DictWF d) (ht : t.WF) : DictWF (updateD d k t) := by
  intro p hp
  rcases List.mem_map.mp hp with ⟨q, hq, hqe⟩
  by_cases h : q.1 = k
  · simp only [h, if_pos rfl] at hqe
    rw [← hqe]
    exact ht
  · simp only [if_neg h] at hqe
    rw [← hqe]
    exact hd q hq

theorem DictWF_lookup {κ : Type} {d : List (String × Table κ)} {k : String}
    {t : Table κ} (hd : DictWF d) (h : lookupD d k = some t) : t.WF := by
  unfold lookupD at h
  rcases hfind : d.find? (fun p => decide (p.1 = k)) with _ | p
  · rw [hfind] at h; cases h
  · rw [hfind] at h
    cases h
    exact hd p (List.mem_of_find?_eq_some hfind)

theorem lookupE_ok {α : Type} {d : List (String × α)} {k : String} {v : α}
    (h : lookupE d k = .ok v) : lookupD d k = some v := by
  unfold lookupE at h
  rcases hl : lookupD d k with _ | w
  · rw [hl] at h; cases h
  · rw [hl] at h; cases h; rfl

/-! ### C2: the header pre-scan returns first-occurrence de-duplication -/

theorem dedupFirst_nil : dedupFirst [] = [] := by
  rw [dedupFirst]

theorem dedupFirst_cons (x : String) (xs : List String) :
    dedupFirst (x :: xs) =
      x :: dedupFirst (xs.filter (fun y => decide (y ≠ x))) := by
  rw [dedupFirst]

theorem mem_dedupFirst (x : String) :
    ∀ l : List String, x ∈ dedupFirst l ↔ x ∈ l := by
  intro l
  induction l using dedupFirst.induct with
  | case1 => simp [dedupFirst_nil]
  | case2 y ys ih =>
    rw [dedupFirst_cons]
    simp only [List.mem_cons, ih, List.mem_filter, decide_eq_true_eq]
    constructor
    · rintro (h | ⟨h, _⟩)
      · exact Or.inl h
      · exact Or.inr h
    · rintro (h | h)
      · exact Or.inl h
      · by_cases hxy : x = y
        · exact Or.inl hxy
        · exact Or.inr ⟨h, hxy⟩

theorem nodup_dedupFirst : ∀ l : List String, (dedupFirst l).Nodup := by
  intro l
  induction l using dedupFirst.induct with
  | case1 => simp [dedupFirst_nil]
  | case2 y ys ih =>
    rw [dedupFirst_cons]
    refine List.nodup_cons.mpr ⟨?_, ih⟩
    intro hmem
    have := (mem_dedupFirst y _).mp hmem
    simp at this

theorem foldl_ins_dedupFirst :
    ∀ (l acc : List String),
      l.foldl (fun acc x => if x ∈ acc then acc else acc ++ [x]) acc =
        acc ++ dedupFirst (l.filter (fun x => decide (x ∉ acc))) := by
  intro l
  induction l with
  | nil => intro acc; simp [dedupFirst_nil]
  | cons x xs ih =>
    intro acc
    by_cases hx : x ∈ acc
    · have hfx : (decide (x ∉ acc)) = false := by simpa using hx
      simp only [List.foldl_cons, if_pos hx, List.filter_cons, hfx,
        Bool.false_eq_true, if_false]
      exact ih acc
    · have hfx : (decide (x ∉ acc)) = true := by simpa using hx
      rw [List.foldl_cons, if_neg hx, ih (acc ++ [x]), List.filter_cons, hfx,
        if_pos rfl, dedupFirst_cons]
      have hfilter :
          xs.filter (fun y => decide (y ∉ acc ++ [x])) =
            (xs.filter (fun y => decide (y ∉ acc))).filter
              (fun y => decide (y ≠ x)) := by
        rw [List.filter_filter]
        apply List.filter_congr
        intro y _
        by_cases h1 : y = x <;> by_cases h2 : y ∈ acc <;>
          simp [h1, h2, List.mem_append]
      rw [hfilter]
      simp

theorem find_in_header_eq_fold (fl : List String)
    (pat : String → Option String) (rep : String) :
    find_in_header fl pat rep =
      (capturedNames fl pat rep).foldl
        (fun acc x => if x ∈ acc then acc else acc ++ [x]) [] := by
  suffices h : ∀ acc : List String,
      fl.foldl
        (fun all_finds line =>
          match pySplit line with
          | t0 :: t1 :: _ =>
            if t0 = "REPORT-" ∧ t1 = rep then
              match pat line with
              | some current_find =>
                if current_find ∈ all_finds then all_finds
                else all_finds ++ [current_find]
              | none => all_finds
            else all_finds
          | _ => all_finds)
        acc =
      (capturedNames fl pat rep).foldl
        (fun acc x => if x ∈ acc then acc else acc ++ [x]) acc by
    exact h []
  induction fl with
  | nil => intro acc; simp [capturedNames]
  | cons line rest ih =>
    intro acc
    simp only [List.foldl_cons, capturedNames, List.filterMap_cons]
    rcases hsplit : pySplit line with _ | ⟨t0, tl⟩
    · simpa [capturedNames, hsplit] using ih acc
    · rcases tl with _ | ⟨t1, tl2⟩
      · simpa [capturedNames, hsplit] using ih acc
      · by_cases hrep : t0 = "REPORT-" ∧ t1 = rep
        · rcases hpat : pat line with _ | name
          · simpa [capturedNames, hsplit, hrep, hpat] using ih acc
          · simp only [hsplit, hrep, if_pos, hpat]
            have := ih (if name ∈ acc then acc else acc ++ [name])
            simpa [capturedNames, hsplit, hrep, hpat] using this
        · simpa [capturedNames, hsplit, hrep] using ih acc

/-! ### Except helpers -/

theorem except_bind_ok {ε α β : Type} {e : Except ε α} {f : α → Except ε β}
    {b : β} (h : e >>= f = .ok b) : ∃ a, e = .ok a ∧ f a = .ok b := by
  cases e with
  | error err =>
    simp only [Bind.bind, Except.bind] at h
    cases h
  | ok a =>
    refine ⟨a, rfl, ?_⟩
    simpa only [Bind.bind, Except.bind] using h

theorem except_pure_ok {ε α : Type} {a b : α}
    (h : (pure a : Except ε α) = .ok b) : a = b := by
  cases h; rfl

theorem except_bind_eq {ε α β : Type} {e : Except ε α} {f : α → Except ε β}
    {a : α} (h : e = .ok a) : (e >>= f) = f a := by
  subst h; rfl

theorem except_bind_error {ε α β : Type} {e : Except ε α}
    {f : α → Except ε β} {err : ε} (h : e = .error err) :
    (e >>= f) = .error err := by
  subst h; rfl

/-! ### BEPS sub-branch lemmas -/

theorem bepsMeter_frame {b b' : BepsSt} {line : String}
    (h : bepsMeter b line = .ok b') :
    b'.components = b.components ∧ b'.summary = b.summary ∧
      b'.unmet = b.unmet ∧ b'.unmet_info = b.unmet_info := by
  unfold bepsMeter at h
  split at h
  · rcases except_bind_ok h with ⟨m0, h1, h⟩
    rcases except_bind_ok h with ⟨t1, h2, h⟩
    cases h
    exact ⟨rfl, rfl, rfl, rfl⟩
  · cases h
    exact ⟨rfl, rfl, rfl, rfl⟩

theorem bepsComp_frame {b b' : BepsSt} {line : String}
    (h : bepsComp b line = .ok b') :
    b'.summary = b.summary ∧ b'.unmet = b.unmet ∧
      b'.unmet_info = b.unmet_info ∧
      b'.components.cols = b.components.cols ∧
      (b.components.WF → b'.components.WF) := by
  unfold bepsComp at h
  split at h
  · split at h
    · rcases except_bind_ok h with ⟨ct, h1, h⟩
      rcases except_bind_ok h with ⟨mt, h2, h⟩
      rcases except_bind_ok h with ⟨tbl, h3, h⟩
      cases h
      exact ⟨rfl, rfl, rfl, write_cols h3, fun hw => write_wf h3 hw⟩
    · cases h
      exact ⟨rfl, rfl, rfl, rfl, id⟩
  · cases h
    exact ⟨rfl, rfl, rfl, rfl, id⟩

theorem bepsSumm_frame {b b' : BepsSt} {line : String}
    (h : bepsSumm b line = .ok b') :
    b'.components = b.components ∧ b'.unmet = b.unmet ∧
      b'.unmet_info = b.unmet_info ∧ b'.meter = b.meter ∧
      b'.current_type = b.current_type ∧
      b'.summary.cols = b.summary.cols ∧
      (b.summary.WF → b'.summary.WF) := by
  unfold bepsSumm at h
  split at h
  · rcases except_bind_ok h with ⟨cs, h1, h⟩
    rcases except_bind_ok h with ⟨v1, h2, h⟩
    rcases except_bind_ok h with ⟨v3, h3, h⟩
    rcases except_bind_ok h with ⟨v6, h4, h⟩
    rcases except_bind_ok h with ⟨tbl, h5, h⟩
    cases h
    exact ⟨rfl, rfl, rfl, rfl, rfl, write_cols h5, fun hw => write_wf h5 hw⟩
  · cases h
    exact ⟨rfl, rfl, rfl, rfl, rfl, rfl, id⟩

theorem bepsUnmet_frame {b b' : BepsSt} {line : String}
    (h : bepsUnmet b line = .ok b') :
    b'.components = b.components ∧ b'.summary = b.summary ∧
      b'.meter = b.meter ∧ b'.current_type = b.current_type ∧
      b'.unmet.cols = b.unmet.cols ∧ (b.unmet.WF → b'.unmet.WF) := by
  unfold bepsUnmet at h
  split at h
  · rcases except_bind_ok h with ⟨b1, h1, h⟩
    have hb1 : b1.components = b.components ∧ b1.summary = b.summary ∧
        b1.meter = b.meter ∧ b1.current_type = b.current_type ∧
        b1.unmet = b.unmet := by
      split at h1
      · rcases except_bind_ok h1 with ⟨lt, h2, h1⟩
        cases except_pure_ok h1
        exact ⟨rfl, rfl, rfl, rfl, rfl⟩
      · cases except_pure_ok h1
        exact ⟨rfl, rfl, rfl, rfl, rfl⟩
    obtain ⟨e1, e2, e3, e4, e5⟩ := hb1
    split at h
    · rcases except_bind_ok h with ⟨tbl, h2, h⟩
      cases h
      rw [e5] at h2
      exact ⟨e1, e2, e3, e4, write_cols h2, fun hw => write_wf h2 hw⟩
    · cases h
      rw [e5]
      exact ⟨e1, e2, e3, e4, rfl, id⟩
  · cases h
    exact ⟨rfl, rfl, rfl, rfl, rfl, id⟩

theorem bepsStep_wf {b b' : BepsSt} {line : String}
    (h : bepsStep b line = .ok b') (hw : b.WF) : b'.WF := by
  unfold bepsStep at h
  rcases except_bind_ok h with ⟨b1, h1, h⟩
  rcases except_bind_ok h with ⟨b2, h2, h⟩
  rcases except_bind_ok h with ⟨b3, h3, h⟩
  obtain ⟨m1, m2, m3, -⟩ := bepsMeter_frame h1
  obtain ⟨c1, c2, -, -, c5⟩ := bepsComp_frame h2
  obtain ⟨s1, s2, -, -, -, -, s7⟩ := bepsSumm_frame h3
  obtain ⟨u1, u2, -, -, -, u6⟩ := bepsUnmet_frame h
  obtain ⟨w1, w2, w3⟩ := hw
  refine ⟨?_, ?_, ?_⟩
  · rw [u1, s1]
    exact c5 (by rw [m1]; exact w1)
  · rw [u2]
    exact s7 (by rw [c1, m2]; exact w2)
  · exact u6 (by rw [s2, c2, m3]; exact w3)

/-! ### SV-A, LV-D and dict-branch lemmas -/

theorem svaSection_frame (v : SvaSt) (line : String) :
    (svaSection v line).systems = v.systems ∧
      (svaSection v line).fans = v.fans ∧
      (svaSection v line).zones = v.zones := by
  unfold svaSection
  split
  · split
    · exact ⟨rfl, rfl, rfl⟩
    · exact ⟨rfl, rfl, rfl⟩
  · exact ⟨rfl, rfl, rfl⟩

theorem svaSystem_spec {sn : Option String} {v v' : SvaSt} {line : String}
    (h : svaSystem sn v line = .ok v') :
    v'.fans = v.fans ∧ v'.zones = v.zones ∧
      v'.current_sv_a_section = v.current_sv_a_section ∧
      (v.systems.WF → v'.systems.WF) := by
  unfold svaSystem at h
  split at h
  · rcases except_bind_ok h with ⟨tbl, h1, h⟩
    cases except_pure_ok h
    exact ⟨rfl, rfl, rfl, fun hw => write_wf h1 hw⟩
  · cases h
    exact ⟨rfl, rfl, rfl, id⟩

theorem svaFan_spec {sn : Option String} {v v' : SvaSt} {line : String}
    (h : svaFan sn v line = .ok v') :
    v'.systems = v.systems ∧ v'.zones = v.zones ∧
      v'.current_sv_a_section = v.current_sv_a_section ∧
      (v.fans.WF → v'.fans.WF) := by
  unfold svaFan at h
  split at h
  · rcases except_bind_ok h with ⟨ft, h1, h⟩
    rcases except_bind_ok h with ⟨tbl, h2, h⟩
    cases except_pure_ok h
    exact ⟨rfl, rfl, rfl, fun hw => write_wf h2 hw⟩
  · cases h
    exact ⟨rfl, rfl, rfl, id⟩

theorem svaZone_spec (sn : Option String) (v : SvaSt) (i : Nat)
    (line : String) :
    (svaZone sn v i line).1.systems = v.systems ∧
      (svaZone sn v i line).1.fans = v.fans ∧
      (v.zones.WF → (svaZone sn v i line).1.zones.WF) := by
  unfold svaZone
  split
  · split
    · rename_i tbl hat
      rcases except_bind_ok hat with ⟨z0, h1, h2⟩
      exact ⟨rfl, rfl, fun hw => write_wf h2 hw⟩
    · exact ⟨rfl, rfl, id⟩
  · exact ⟨rfl, rfl, id⟩

theorem svaStep_wf {sn : Option String} {v : SvaSt} {i : Nat} {line : String}
    {r : SvaSt × List String} (h : svaStep sn v i line = .ok r)
    (hw : v.WF) : r.1.WF := by
  unfold svaStep at h
  rcases except_bind_ok h with ⟨v1, h1, h⟩
  rcases except_bind_ok h with ⟨v2, h2, h⟩
  cases except_pure_ok h
  obtain ⟨e1, e2, e3⟩ := svaSection_frame v line
  obtain ⟨f1, f2, -, f4⟩ := svaSystem_spec h1
  obtain ⟨g1, g2, -, g4⟩ := svaFan_spec h2
  obtain ⟨z1, z2, z3⟩ := svaZone_spec sn v2 i line
  obtain ⟨w1, w2, w3⟩ := hw
  refine ⟨?_, ?_, ?_⟩
  · rw [z1, g1]
    exact f4 (by rw [e1]; exact w1)
  · rw [z2]
    exact g4 (by rw [f1, e2]; exact w2)
  · exact z3 (by rw [g2, f2, e3]; exact w3)

theorem lvdStep_spec {t t' : Table String} {line : String}
    (h : lvdStep t line = .ok t') :
    t'.cols = t.cols ∧ (t.WF → t'.WF) := by
  unfold lvdStep at h
  split at h
  · split at h
    · exact ⟨write_cols h, fun hw => write_wf h hw⟩
    · exact ⟨write_cols h, fun hw => write_wf h hw⟩
  · cases except_pure_ok h
    exact ⟨rfl, id⟩

theorem psfStep_spec {m mo : Option String}
    {d : List (String × Table (String × String))} {line : String}
    {r : Option String × List (String × Table (String × String))}
    (h : psfStep m mo d line = .ok r) (hd : DictWF d) :
    DictWF r.2 ∧ keysD r.2 = keysD d := by
  unfold psfStep at h
  rcases except_bind_ok h with ⟨h0, hh, h⟩
  split at h
  · rcases except_bind_ok h with ⟨mt, h1, h⟩
    rcases except_bind_ok h with ⟨tbl, h2, h⟩
    rcases except_bind_ok h with ⟨mo2, h3, h⟩
    rcases except_bind_ok h with ⟨tbl2, h4, h⟩
    cases except_pure_ok h
    exact ⟨DictWF_updateD hd (write_wf h4 (DictWF_lookup hd (lookupE_ok h2))),
      keysD_updateD _ _ _⟩
  · split at h
    · rcases except_bind_ok h with ⟨mt, h1, h⟩
      rcases except_bind_ok h with ⟨tbl, h2, h⟩
      rcases except_bind_ok h with ⟨tbl1, h3, h⟩
      rcases except_bind_ok h with ⟨mo2, h4, h⟩
      rcases except_bind_ok h with ⟨tbl2, h5, h⟩
      cases except_pure_ok h
      exact ⟨DictWF_updateD hd
        (write_wf h5 (setIndex_wf h3 (DictWF_lookup hd (lookupE_ok h2)))),
        keysD_updateD _ _ _⟩
    · split at h
      · rcases except_bind_ok h with ⟨mt, h1, h⟩
        rcases except_bind_ok h with ⟨tbl, h2, h⟩
        rcases except_bind_ok h with ⟨mo2, h3, h⟩
        rcases except_bind_ok h with ⟨tbl2, h4, h⟩
        cases except_pure_ok h
        exact ⟨DictWF_updateD hd
          (write_wf h4 (DictWF_lookup hd (lookupE_ok h2))),
          keysD_updateD _ _ _⟩
      · split at h
        · rcases except_bind_ok h with ⟨lt, h0b, h⟩
          rcases except_bind_ok h with ⟨mt, h1, h⟩
          rcases except_bind_ok h with ⟨tbl, h2, h⟩
          rcases except_bind_ok h with ⟨mo2, h3, h⟩
          rcases except_bind_ok h with ⟨tbl2, h4, h⟩
          cases except_pure_ok h
          exact ⟨DictWF_updateD hd
            (write_wf h4 (DictWF_lookup hd (lookupE_ok h2))),
            keysD_updateD _ _ _⟩
        · cases except_pure_ok h
          exact ⟨hd, rfl⟩

theorem ssaStep_spec {sys : Option String} {d d' : List (String × Table String)}
    {line : String} (h : ssaStep sys d line = .ok d') (hd : DictWF d) :
    DictWF d' ∧ keysD d' = keysD d := by
  unfold ssaStep at h
  rcases except_bind_ok h with ⟨h0, hh, h⟩
  split at h
  · rcases except_bind_ok h with ⟨s, h1, h⟩
    rcases except_bind_ok h with ⟨tbl, h2, h⟩
    rcases except_bind_ok h with ⟨tbl2, h3, h⟩
    cases except_pure_ok h
    exact ⟨DictWF_updateD hd (write_wf h3 (DictWF_lookup hd (lookupE_ok h2))),
      keysD_updateD _ _ _⟩
  · split at h
    · rcases except_bind_ok h with ⟨v1, h1, h⟩
      rcases except_bind_ok h with ⟨v2, h2, h⟩
      rcases except_bind_ok h with ⟨v3, h3, h⟩
      rcases except_bind_ok h with ⟨s, h4, h⟩
      rcases except_bind_ok h with ⟨tbl, h5, h⟩
      rcases except_bind_ok h with ⟨tbl2, h6, h⟩
      cases except_pure_ok h
      exact ⟨DictWF_updateD hd
        (write_wf h6 (DictWF_lookup hd (lookupE_ok h5))), keysD_updateD _ _ _⟩
    · split at h
      · rcases except_bind_ok h with ⟨v1, h1, h⟩
        rcases except_bind_ok h with ⟨v2, h2, h⟩
        rcases except_bind_ok h with ⟨v3, h3, h⟩
        rcases except_bind_ok h with ⟨s, h4, h⟩
        rcases except_bind_ok h with ⟨tbl, h5, h⟩
        rcases except_bind_ok h with ⟨tbl2, h6, h⟩
        cases except_pure_ok h
        exact ⟨DictWF_updateD hd
          (write_wf h6 (DictWF_lookup hd (lookupE_ok h5))),
          keysD_updateD _ _ _⟩
      · cases except_pure_ok h
        exact ⟨hd, rfl⟩

theorem ssbStep_spec {sys : Option String} {d d' : List (String × Table String)}
    {line : String} (h : ssbStep sys d line = .ok d') (hd : DictWF d) :
    DictWF d' ∧ keysD d' = keysD d := by
  unfold ssbStep at h
  rcases except_bind_ok h with ⟨h0, hh, h⟩
  split at h
  · rcases except_bind_ok h with ⟨s, h1, h⟩
    rcases except_bind_ok h with ⟨tbl, h2, h⟩
    rcases except_bind_ok h with ⟨tbl2, h3, h⟩
    cases except_pure_ok h
    exact ⟨DictWF_updateD hd (write_wf h3 (DictWF_lookup hd (lookupE_ok h2))),
      keysD_updateD _ _ _⟩
  · split at h
    · rcases except_bind_ok h with ⟨v1, h1, h⟩
      rcases except_bind_ok h with ⟨v2, h2, h⟩
      rcases except_bind_ok h with ⟨v3, h3, h⟩
      rcases except_bind_ok h with ⟨v4, h4, h⟩
      rcases except_bind_ok h with ⟨s, h5, h⟩
      rcases except_bind_ok h with ⟨tbl, h6, h⟩
      rcases except_bind_ok h with ⟨tbl2, h7, h⟩
      cases except_pure_ok h
      exact ⟨DictWF_updateD hd
        (write_wf h7 (DictWF_lookup hd (lookupE_ok h6))), keysD_updateD _ _ _⟩
    · split at h
      · rcases except_bind_ok h with ⟨v1, h1, h⟩
        rcases except_bind_ok h with ⟨v2, h2, h⟩
        rcases except_bind_ok h with ⟨v3, h3, h⟩
        rcases except_bind_ok h with ⟨v4, h4, h⟩
        rcases except_bind_ok h with ⟨s, h5, h⟩
        rcases except_bind_ok h with ⟨tbl, h6, h⟩
        rcases except_bind_ok h with ⟨tbl2, h7, h⟩
        cases except_pure_ok h
        exact ⟨DictWF_updateD hd
          (write_wf h7 (DictWF_lookup hd (lookupE_ok h6))),
          keysD_updateD _ _ _⟩
      · cases except_pure_ok h
        exact ⟨hd, rfl⟩

theorem pvaStep_spec {pe : Option String} {d : List (String × Table String)}
    {line : String} {next? : Option String}
    {r : Option String × List (String × Table String)}
    (h : pvaStep pe d line next? = .ok r) (hd : DictWF d) :
    DictWF r.2 ∧ keysD r.2 = keysD d := by
  unfold pvaStep at h
  split at h
  · split at h
    · rcases except_bind_ok h with ⟨key, h1, h⟩
      rcases except_bind_ok h with ⟨tbl, h2, h⟩
      rcases except_bind_ok h with ⟨nxt, h3, h⟩
      rcases except_bind_ok h with ⟨tbl2, h4, h⟩
      cases except_pure_ok h
      exact ⟨DictWF_updateD hd
        (write_wf h4 (DictWF_lookup hd (lookupE_ok h2))), keysD_updateD _ _ _⟩
    · cases except_pure_ok h
      exact ⟨hd, rfl⟩
  · cases except_pure_ok h
    exact ⟨hd, rfl⟩

/-! ### Header and dispatcher lemmas -/

theorem headerStep_frame {s s' : St} {i : Nat} {line t1 : String}
    (h : headerStep s i line t1 = .ok s') :
    s'.beps = s.beps ∧ s'.sva = s.sva ∧ s'.lv_d = s.lv_d ∧
      s'.ps_f = s.ps_f ∧ s'.pv_a = s.pv_a ∧ s'.ss_a = s.ss_a ∧
      s'.ss_b = s.ss_b ∧ s'.current_report = some t1 := by
  unfold headerStep at h
  split at h
  · split at h <;>
    · cases except_pure_ok h
      exact ⟨rfl, rfl, rfl, rfl, rfl, rfl, rfl, rfl⟩
  · split at h
    · split at h
      · cases except_pure_ok h
        exact ⟨rfl, rfl, rfl, rfl, rfl, rfl, rfl, rfl⟩
      · cases h
    · split at h
      · split at h
        · cases except_pure_ok h
          exact ⟨rfl, rfl, rfl, rfl, rfl, rfl, rfl, rfl⟩
        · cases h
      · split at h
        · split at h
          · cases except_pure_ok h
            exact ⟨rfl, rfl, rfl, rfl, rfl, rfl, rfl, rfl⟩
          · cases h
        · cases except_pure_ok h
          exact ⟨rfl, rfl, rfl, rfl, rfl, rfl, rfl, rfl⟩

theorem dispatch_wf {s s' : St} {i : Nat} {line : String}
    {next? : Option String} (h : dispatch s i line next? = .ok s')
    (hw : s.WF) : s'.WF := by
  obtain ⟨wb, wv, wl, wp, wa, w1, w2⟩ := hw
  unfold dispatch at h
  split at h
  -- BEPS
  · split at h
    · rcases except_bind_ok h with ⟨b, h1, h⟩
      cases except_pure_ok h
      exact ⟨bepsStep_wf h1 wb, wv, wl, wp, wa, w1, w2⟩
    · cases except_pure_ok h
      exact ⟨wb, wv, wl, wp, wa, w1, w2⟩
  -- LV-D
  · split at h
    · rcases except_bind_ok h with ⟨t, h1, h⟩
      cases except_pure_ok h
      exact ⟨wb, wv, (lvdStep_spec h1).2 wl, wp, wa, w1, w2⟩
    · cases except_pure_ok h
      exact ⟨wb, wv, wl, wp, wa, w1, w2⟩
  -- PS-F
  · split at h
    · rcases except_bind_ok h with ⟨r, h1, h⟩
      cases except_pure_ok h
      exact ⟨wb, wv, wl, (psfStep_spec h1 wp).1, wa, w1, w2⟩
    · cases except_pure_ok h
      exact ⟨wb, wv, wl, wp, wa, w1, w2⟩
  -- SS-A
  · split at h
    · rcases except_bind_ok h with ⟨d, h1, h⟩
      cases except_pure_ok h
      exact ⟨wb, wv, wl, wp, wa, (ssaStep_spec h1 w1).1, w2⟩
    · cases except_pure_ok h
      exact ⟨wb, wv, wl, wp, wa, w1, w2⟩
  -- SS-B
  · split at h
    · rcases except_bind_ok h with ⟨d, h1, h⟩
      cases except_pure_ok h
      exact ⟨wb, wv, wl, wp, wa, w1, (ssbStep_spec h1 w2).1⟩
    · cases except_pure_ok h
      exact ⟨wb, wv, wl, wp, wa, w1, w2⟩
  -- PV-A
  · rcases except_bind_ok h with ⟨r, h1, h⟩
    cases except_pure_ok h
    exact ⟨wb, wv, wl, wp, (pvaStep_spec h1 wa).1, w1, w2⟩
  -- SV-A
  · split at h
    · rcases except_bind_ok h with ⟨r, h1, h⟩
      cases except_pure_ok h
      exact ⟨wb, svaStep_wf h1 wv, wl, wp, wa, w1, w2⟩
    · cases except_pure_ok h
      exact ⟨wb, wv, wl, wp, wa, w1, w2⟩
  -- no active report
  · cases except_pure_ok h
    exact ⟨wb, wv, wl, wp, wa, w1, w2⟩

theorem lineStep_wf {s s' : St} {i : Nat} {line : String}
    {next? : Option String} (h : lineStep s i line next? = .ok s')
    (hw : s.WF) : s'.WF := by
  unfold lineStep at h
  split at h
  · split at h
    · obtain ⟨e1, e2, e3, e4, e5, e6, e7, -⟩ := headerStep_frame h
      obtain ⟨wb, wv, wl, wp, wa, w1, w2⟩ := hw
      rw [St.WF, e1, e2, e3, e4, e5, e6, e7]
      exact ⟨wb, wv, wl, wp, wa, w1, w2⟩
    · exact dispatch_wf h hw
  · exact dispatch_wf h hw

theorem runLines_wf :
    ∀ (L : List String) (s : St) (i : Nat) (st : St),
      runLines s i L = .ok st → s.WF → st.WF := by
  intro L
  induction L with
  | nil =>
    intro s i st h hw
    cases h
    exact hw
  | cons line rest ih =>
    intro s i st h hw
    unfold runLines at h
    rcases except_bind_ok h with ⟨s1, h1, h⟩
    exact ih s1 (i + 1) st h (lineStep_wf h1 hw)

theorem create_ps_f_dict_wf (ms : List String) :
    DictWF (create_ps_f_dict ms) := by
  intro p hp
  simp only [create_ps_f_dict, List.mem_map] at hp
  rcases hp with ⟨m, hm, rfl⟩
  intro q hq
  simp only [List.mem_map] at hq
  rcases hq with ⟨k, hk, rfl⟩
  simp

theorem create_ss_a_dict_wf (sys : List String) :
    DictWF (create_ss_a_dict sys) := by
  intro p hp
  simp only [create_ss_a_dict, List.mem_map] at hp
  rcases hp with ⟨m, hm, rfl⟩
  intro q hq
  simp only [List.mem_map] at hq
  rcases hq with ⟨k, hk, rfl⟩
  simp

theorem create_ss_b_dict_wf (sys : List String) :
    DictWF (create_ss_b_dict sys) := by
  intro p hp
  simp only [create_ss_b_dict, List.mem_map] at hp
  rcases hp with ⟨m, hm, rfl⟩
  intro q hq
  simp only [List.mem_map] at hq
  rcases hq with ⟨k, hk, rfl⟩
  simp

theorem create_pv_a_dict_wf : DictWF create_pv_a_dict := by
  intro p hp
  simp only [create_pv_a_dict, List.mem_cons, List.not_mem_nil, or_false]
    at hp
  rcases hp with rfl | rfl | rfl | rfl | rfl <;>
    (intro q hq; simp at hq)

theorem init_st_wf (ms sys : List String) : (init_st ms sys).WF := by
  refine ⟨⟨?_, ?_, ?_⟩, ⟨?_, ?_, ?_⟩, ?_, ?_, ?_, ?_, ?_⟩
  case refine_8 => exact create_ps_f_dict_wf ms
  case refine_9 => exact create_pv_a_dict_wf
  case refine_10 => exact create_ss_a_dict_wf sys
  case refine_11 => exact create_ss_b_dict_wf sys
  all_goals (intro p hp; simp [init_st, create_lv_d_table] at hp)

/-- C1 (amended): (1) for every document whose parse completes, every row
of every produced table has exactly one value per schema column (writes
with any other arity raise `ValueError` instead of committing);
(2) a FAN row whose token count exceeds the schema arity (11) by exactly
one reaches schema arity through the position-9/10 merge; (3) a PEAK
ENDUSE / PEAK PCT row with at least 12 whitespace tokens reaches schema
arity (13) by appending exactly one empty value and slicing the last
13. -/
theorem row_arity_invariant :
    (∀ (doc : List String) (st : St), parse_sim doc = .ok st → st.WF) ∧
    (∀ ll : List String, (ll.drop 1).length = 12 →
      ((fanAdjust ll).drop 1).length = 11) ∧
    (∀ ll : List String, 12 ≤ ll.length →
      (pySliceLast 13 (ll ++ [""])).length = 13) := by
  refine ⟨?_, ?_, ?_⟩
  · intro doc st h
    exact runLines_wf doc _ 0 st h (init_st_wf _ _)
  · intro ll hl
    have hlen : ll.length = 13 := by
      have := List.length_drop 1 ll
      omega
    unfold fanAdjust
    rw [if_pos (by omega)]
    simp only [List.length_drop, List.length_append, List.length_take,
      List.length_singleton]
    omega
  · intro ll hl
    unfold pySliceLast
    simp only [List.length_drop, List.length_append, List.length_singleton]
    omega

/-- C1 witness: the amended invariant applied at concrete inputs — the
empty document parses to well-formed initial tables, a 13-token FAN line
(12 values) merges to 11 values, and a 14-token PEAK line pads and
slices to 13. -/
theorem row_arity_invariant_witness :
    (init_st [] []).WF ∧
    ((fanAdjust ["F", "1", "2", "3", "4", "5", "6", "7", "8", "9", "10",
      "11", "12"]).drop 1).length = 11 ∧
    (pySliceLast 13 ((["PEAK", "ENDUSE", "1", "2", "3", "4", "5", "6", "7",
      "8", "9", "10", "11", "12"] : List String) ++ [""])).length = 13 := by
  refine ⟨?_, ?_, ?_⟩
  · have h : parse_sim [] = .ok (init_st [] []) := rfl
    exact row_arity_invariant.1 [] _ h
  · exact row_arity_invariant.2.1 _ (by decide)
  · exact row_arity_invariant.2.2 _ (by decide)

/-- C1 counterexample: the claim as stated says any FAN row whose token
count exceeds the schema arity reaches arity through the merge, and any
PEAK ENDUSE row reaches arity through the one-value pad.  A FAN line with
13 values (two over arity) still has 12 values after the single merge —
the write then raises `ValueError` (shown on a concrete SV-A state in FAN
context) — and a bare 2-token PEAK ENDUSE line pads to only 3 values,
not 13. -/
theorem row_arity_claim_counterexample :
    ((["F", "1", "2", "3", "4", "5", "6", "7", "8", "9", "10", "11", "12",
      "13"] : List String).drop 1).length = 13 ∧
    ((fanAdjust ["F", "1", "2", "3", "4", "5", "6", "7", "8", "9", "10",
      "11", "12", "13"]).drop 1).length = 12 ∧
    svaStep (some "SYS-1") sva_in_fan 0 fan_line_13 = .error .valueError ∧
    (pySliceLast 13 ((["PEAK", "ENDUSE"] : List String) ++ [""])).length
      = 3 := by
  refine ⟨by decide, by decide, by decide, by decide⟩

/-! ### C4: header-capture failure policy -/

/-- C4 (amended): a section-header line matching the marker and a
name-bearing report code but failing the name-capture pattern is fatal
for PS-F, SS-A and SS-B — the scan raises at that line, so no later line
of the document is processed and the document yields no tables — while
for SV-A the failure is only printed: the scan continues with the
previous `system_name` and the report switched to SV-A. -/
theorem header_capture_failure_policy :
    (∀ (s : St) (i : Nat) (line : String) (rest tl : List String),
      pySplit line = "REPORT-" :: "PS-F" :: tl →
      headerCapture psfHeaderLit line = none →
      runLines s i (line :: rest) = .error (.headerCapture "PS-F")) ∧
    (∀ (s : St) (i : Nat) (line : String) (rest tl : List String),
      pySplit line = "REPORT-" :: "SS-A" :: tl →
      headerCapture ssaHeaderLit line = none →
      runLines s i (line :: rest) = .error (.headerCapture "SS-A")) ∧
    (∀ (s : St) (i : Nat) (line : String) (rest tl : List String),
      pySplit line = "REPORT-" :: "SS-B" :: tl →
      headerCapture ssbHeaderLit line = none →
      runLines s i (line :: rest) = .error (.headerCapture "SS-B")) ∧
    (∀ (s : St) (i : Nat) (line : String) (next? : Option String)
      (tl : List String),
      pySplit line = "REPORT-" :: "SV-A" :: tl →
      headerCapture svaHeaderLit line = none →
      lineStep s i line next? = .ok { s with
        current_report := some "SV-A"
        log := s.log ++
          ["Error, on line " ++ toString i ++
           " couldn't find the name for the system. Here is the line:",
           line] }) := by
  refine ⟨?_, ?_, ?_, ?_⟩
  · intro s i line rest tl hsplit hcap
    unfold runLines lineStep
    rw [hsplit]
    simp [headerStep, hcap, Bind.bind, Except.bind]
  · intro s i line rest tl hsplit hcap
    unfold runLines lineStep
    rw [hsplit]
    simp [headerStep, hcap, Bind.bind, Except.bind]
  · intro s i line rest tl hsplit hcap
    unfold runLines lineStep
    rw [hsplit]
    simp [headerStep, hcap, Bind.bind, Except.bind]
  · intro s i line next? tl hsplit hcap
    unfold lineStep
    rw [hsplit]
    simp only [headerStep, hcap, reduceIte]
    rfl

/-- C4 witness: the policy applied at a concrete capture-failing header
line of each kind (the line of `doc_sva_bad_header` for SV-A, and its
PS-F / SS-A / SS-B analogues), from the initial state. -/
theorem header_capture_failure_policy_witness :
    runLines (init_st [] []) 0 ["REPORT- PS-F Energy End-Use Summary\n"] =
      .error (.headerCapture "PS-F") ∧
    runLines (init_st [] []) 0 ["REPORT- SS-A System Loads Summary\n"] =
      .error (.headerCapture "SS-A") ∧
    runLines (init_st [] []) 0 ["REPORT- SS-B System Loads Summary\n"] =
      .error (.headerCapture "SS-B") ∧
    lineStep (init_st [] []) 0 "REPORT- SV-A System Design Parameters\n"
        none =
      .ok { init_st [] [] with
        current_report := some "SV-A"
        log := ["Error, on line 0 couldn't find the name for the system. " ++
          "Here is the line:", "REPORT- SV-A System Design Parameters\n"] } := by
  refine ⟨?_, ?_, ?_, ?_⟩
  · exact header_capture_failure_policy.1 _ 0 _ []
      ["Energy", "End-Use", "Summary"] (by decide) (by decide)
  · exact header_capture_failure_policy.2.1 _ 0 _ []
      ["System", "Loads", "Summary"] (by decide) (by decide)
  · exact header_capture_failure_policy.2.2.1 _ 0 _ []
      ["System", "Loads", "Summary"] (by decide) (by decide)
  · exact header_capture_failure_policy.2.2.2 _ 0 _ none
      ["System", "Design", "Parameters"] (by decide) (by decide)

/-- C4 counterexample: the claim as stated includes SV-A among the codes
for which a capture-failing header aborts the document.  In
`doc_sva_bad_header` the first line is an SV-A header (first two tokens
`REPORT-`, `SV-A`) whose name capture fails, yet the parse completes and
a PS-F row sourced from a *later* line of the same document is committed
— so the parse was not aborted and further lines were processed into
tables. -/
theorem header_capture_sva_not_fatal_counterexample :
    (pySplit "REPORT- SV-A System Design Parameters\n").take 2 =
      ["REPORT-", "SV-A"] ∧
    headerCapture svaHeaderLit "REPORT- SV-A System Design Parameters\n" =
      none ∧
    (parse_sim doc_sva_bad_header).map (fun st =>
      (lookupD st.ps_f "MTR-1").map (fun t => rowAt t ("JAN", "KWH"))) =
      .ok (some (some
        [Cell.val "1", Cell.val "2", Cell.val "3", Cell.val "4",
         Cell.val "5", Cell.val "6", Cell.val "7", Cell.val "8",
         Cell.val "9", Cell.val "10", Cell.val "11", Cell.val "12",
         Cell.val "13"])) := by
  refine ⟨by decide, by decide, by decide⟩

/-- C2: for every document and report code, the header pre-scan
(`find_in_header`, identical in both scripts) returns exactly the
first-occurrence de-duplication of the entity names captured on that
code's section-header lines — duplicate-free, one entry per distinct
captured name, ordered by first appearance in the document, regardless of
how many header lines carry each name. -/
theorem find_in_header_dedup_first_order (fl : List String)
    (pat : String → Option String) (rep : String) :
    find_in_header fl pat rep = dedupFirst (capturedNames fl pat rep) ∧
    (find_in_header fl pat rep).Nodup ∧
    (∀ x, x ∈ find_in_header fl pat rep ↔ x ∈ capturedNames fl pat rep) := by
  have h1 : find_in_header fl pat rep =
      dedupFirst (capturedNames fl pat rep) := by
    rw [find_in_header_eq_fold, foldl_ins_dedupFirst]
    simp only [List.nil_append]
    congr 1
    apply (List.filter_eq_self (p := fun x => decide (x ∉ ([] : List String)))
      (l := capturedNames fl pat rep)).mpr
    intro a _
    simp
  refine ⟨h1, ?_, ?_⟩
  · rw [h1]; exact nodup_dedupFirst _
  · intro x
    rw [h1]
    exact mem_dedupFirst x _

/-! ### C5: the BEPS unmet-hours accumulator -/

theorem pyLast_eq {l : List String} (hn : l ≠ []) :
    pyLast l = .ok (l.getLastD "") := by
  unfold pyLast
  rw [List.getLastD_eq_getLast?]
  rcases h : l.getLast? with _ | x
  · exact absurd (List.getLast?_eq_none_iff.mp h) hn
  · rfl

theorem bepsUnmet_not {b : BepsSt} {line : String}
    (hm : matchesUnmet line = false) : bepsUnmet b line = .ok b := by
  unfold bepsUnmet
  rw [if_neg (by simp [hm])]
  rfl

theorem bepsUnmet_match {b : BepsSt} {line : String}
    (hm : matchesUnmet line = true) (hn : pySplit line ≠ [])
    (hc : b.unmet.cols.length = 4) :
    bepsUnmet b line = .ok
      { b with
        unmet_info := (unmetStep b.unmet_info b.unmet line).1
        unmet := (unmetStep b.unmet_info b.unmet line).2 } := by
  have htok : pyLast (pySplit line) = .ok (unmetTok line) := pyLast_eq hn
  unfold bepsUnmet
  rw [if_pos hm]
  by_cases hlt : b.unmet_info.length < 4
  · rw [if_pos hlt]
    simp only [htok, Bind.bind, Except.bind, pure, Except.pure]
    simp only [unmetStep, if_pos hlt]
    by_cases h4 : (b.unmet_info ++ [unmetTok line]).length = 4
    · have hw : b.unmet.write "Unmet" (b.unmet_info ++ [unmetTok line]) =
          .ok { b.unmet with
            rows := (upsertRow b.unmet.rows "Unmet"
              ((b.unmet_info ++ [unmetTok line]).map Cell.val)) } := by
        unfold Table.write
        rw [if_pos (by rw [h4, hc])]
      rw [if_pos h4, hw, if_pos h4]
    · rw [if_neg h4, if_neg h4]
  · rw [if_neg hlt]
    simp only [Bind.bind, Except.bind, pure, Except.pure]
    simp only [unmetStep, if_neg hlt]
    by_cases h4 : b.unmet_info.length = 4
    · have hw : b.unmet.write "Unmet" b.unmet_info =
          .ok { b.unmet with
            rows := (upsertRow b.unmet.rows "Unmet"
              (b.unmet_info.map Cell.val)) } := by
        unfold Table.write
        rw [if_pos (by rw [h4, hc])]
      rw [if_pos h4, hw, if_pos h4]
    · rw [if_neg h4, if_neg h4]

theorem unmetStep_cols (u : List String) (t : Table String) (line : String) :
    (unmetStep u t line).2.cols = t.cols := by
  simp only [unmetStep]
  split <;> first | rfl | (split <;> rfl)

theorem bepsStep_unmet {b b' : BepsSt} {line : String}
    (h : bepsStep b line = .ok b') (hc : b.unmet.cols.length = 4)
    (hn : pySplit line ≠ []) :
    b'.unmet.cols = b.unmet.cols ∧
    (b'.unmet_info, b'.unmet) =
      (if matchesUnmet line then unmetStep b.unmet_info b.unmet line
       else (b.unmet_info, b.unmet)) := by
  unfold bepsStep at h
  rcases except_bind_ok h with ⟨b1, h1, h⟩
  rcases except_bind_ok h with ⟨b2, h2, h⟩
  rcases except_bind_ok h with ⟨b3, h3, h⟩
  obtain ⟨-, -, m3, m4⟩ := bepsMeter_frame h1
  obtain ⟨-, c2, c3, -, -⟩ := bepsComp_frame h2
  obtain ⟨-, s2, s3, -, -, -, -⟩ := bepsSumm_frame h3
  have hu3 : b3.unmet = b.unmet := by rw [s2, c2, m3]
  have hi3 : b3.unmet_info = b.unmet_info := by rw [s3, c3, m4]
  rcases hm : matchesUnmet line with _ | _
  · rw [bepsUnmet_not hm] at h
    cases h
    rw [if_neg (by simp)]
    exact ⟨by rw [hu3], by rw [hi3, hu3]⟩
  · rw [bepsUnmet_match hm hn (by rw [hu3]; exact hc)] at h
    cases h
    rw [if_pos rfl]
    refine ⟨?_, ?_⟩
    · show (unmetStep b3.unmet_info b3.unmet line).2.cols = b.unmet.cols
      rw [unmetStep_cols, hu3]
    · show ((unmetStep b3.unmet_info b3.unmet line).1,
          (unmetStep b3.unmet_info b3.unmet line).2) =
        unmetStep b.unmet_info b.unmet line
      rw [hu3, hi3]

theorem dispatch_report {s s' : St} {i : Nat} {line : String}
    {next? : Option String} (h : dispatch s i line next? = .ok s') :
    s'.current_report = s.current_report := by
  unfold dispatch at h
  split at h <;>
    first
    | (split at h
       · rcases except_bind_ok h with ⟨x, h1, h⟩
         cases except_pure_ok h
         rfl
       · cases except_pure_ok h
         rfl)
    | (rcases except_bind_ok h with ⟨x, h1, h⟩
       cases except_pure_ok h
       rfl)
    | (cases except_pure_ok h
       rfl)

theorem dispatch_beps_frame {s s' : St} {i : Nat} {line : String}
    {next? : Option String} (h : dispatch s i line next? = .ok s')
    (hne : s.current_report ≠ some "BEPS") : s'.beps = s.beps := by
  unfold dispatch at h
  split at h
  · rename_i heq
    exact absurd heq hne
  all_goals
    first
    | (split at h
       · rcases except_bind_ok h with ⟨x, h1, h⟩
         cases except_pure_ok h
         rfl
       · cases except_pure_ok h
         rfl)
    | (rcases except_bind_ok h with ⟨x, h1, h⟩
       cases except_pure_ok h
       rfl)
    | (cases except_pure_ok h
       rfl)

theorem dispatch_unmet {s s' : St} {i : Nat} {line : String}
    {next? : Option String} (h : dispatch s i line next? = .ok s')
    (hc : s.beps.unmet.cols.length = 4) :
    s'.beps.unmet.cols = s.beps.unmet.cols ∧
    (s'.beps.unmet_info, s'.beps.unmet) =
      (if s.current_report = some "BEPS" ∧ pySplit line ≠ [] ∧
          matchesUnmet line then
        unmetStep s.beps.unmet_info s.beps.unmet line
      else (s.beps.unmet_info, s.beps.unmet)) := by
  by_cases hrep : s.current_report = some "BEPS"
  · have hd := h
    unfold dispatch at hd
    rw [hrep] at hd
    simp only at hd
    by_cases hlen : (pySplit line).length > 0
    · rw [if_pos hlen] at hd
      rcases except_bind_ok hd with ⟨b, h1, hd⟩
      cases except_pure_ok hd
      have hn : pySplit line ≠ [] := by
        intro hnil
        rw [hnil] at hlen
        simp at hlen
      obtain ⟨e1, e2⟩ := bepsStep_unmet h1 hc hn
      refine ⟨e1, ?_⟩
      rcases hm : matchesUnmet line with _ | _
      · rw [if_neg (by simp [hm])]
        rw [hm] at e2
        simpa using e2
      · rw [if_pos ⟨hrep, hn, rfl⟩]
        rw [hm] at e2
        simpa using e2
    · rw [if_neg hlen] at hd
      cases except_pure_ok hd
      have hn : pySplit line = [] := by
        rcases hsp : pySplit line with _ | _
        · rfl
        · rw [hsp] at hlen; simp at hlen
      rw [if_neg (by simp [hn])]
      exact ⟨rfl, rfl⟩
  · have := dispatch_beps_frame h hrep
    rw [this]
    rw [if_neg (by intro hx; exact hrep hx.1)]
    exact ⟨rfl, rfl⟩

theorem lineStep_unmet {s s' : St} {i : Nat} {line : String}
    {next? : Option String} (h : lineStep s i line next? = .ok s')
    (hc : s.beps.unmet.cols.length = 4) :
    s'.current_report = reportAfter s.current_report line ∧
    s'.beps.unmet.cols = s.beps.unmet.cols ∧
    (s'.beps.unmet_info, s'.beps.unmet) =
      (if ¬ isHeaderLine line ∧ s.current_report = some "BEPS" ∧
          pySplit line ≠ [] ∧ matchesUnmet line then
        unmetStep s.beps.unmet_info s.beps.unmet line
      else (s.beps.unmet_info, s.beps.unmet)) := by
  unfold lineStep at h
  rcases hsp : pySplit line with _ | ⟨t0, tl⟩
  · rw [hsp] at h
    have hh : isHeaderLine line = false := by simp [isHeaderLine, hsp]
    have hra : reportAfter s.current_report line = s.current_report := by
      simp [reportAfter, hsp]
    obtain ⟨e1, e2⟩ := dispatch_unmet h hc
    rw [hsp] at e2
    refine ⟨by rw [hra]; exact dispatch_report h, e1, ?_⟩
    rw [e2]
    rw [if_neg (fun hx => hx.2.1 rfl), if_neg (fun hx => hx.2.2.1 rfl)]
  · rcases tl with _ | ⟨t1, tl2⟩
    · rw [hsp] at h
      have hh : isHeaderLine line = false := by simp [isHeaderLine, hsp]
      have hra : reportAfter s.current_report line = s.current_report := by
        simp [reportAfter, hsp]
      obtain ⟨e1, e2⟩ := dispatch_unmet h hc
      rw [hsp] at e2
      refine ⟨by rw [hra]; exact dispatch_report h, e1, ?_⟩
      rw [e2]
      by_cases hcase : s.current_report = some "BEPS" ∧
          matchesUnmet line = true
      · rw [if_pos ⟨hcase.1, List.cons_ne_nil _ _, hcase.2⟩,
          if_pos ⟨by simp [hh], hcase.1, List.cons_ne_nil _ _, hcase.2⟩]
      · rw [if_neg (fun hx => hcase ⟨hx.1, hx.2.2⟩),
          if_neg (fun hx => hcase ⟨hx.2.1, hx.2.2.2⟩)]
    · rw [hsp] at h
      have h2 : (if t0 = "REPORT-" then headerStep s i line t1
          else dispatch s i line next?) = Except.ok s' := h
      clear h
      rename' h2 => h
      by_cases ht0 : t0 = "REPORT-"
      · rw [if_pos ht0] at h
        have hh : isHeaderLine line = true := by
          simp [isHeaderLine, hsp, ht0]
        obtain ⟨e1, -, -, -, -, -, -, e8⟩ := headerStep_frame h
        have hra : reportAfter s.current_report line = some t1 := by
          simp [reportAfter, hsp, hh]
        refine ⟨by rw [hra, e8], by rw [e1], ?_⟩
        rw [if_neg (by simp [hh]), e1]
      · rw [if_neg ht0] at h
        have hh : isHeaderLine line = false := by
          simp [isHeaderLine, hsp, ht0]
        have hra : reportAfter s.current_report line = s.current_report := by
          simp [reportAfter, hsp, hh]
        obtain ⟨e1, e2⟩ := dispatch_unmet h hc
        rw [hsp] at e2
        refine ⟨by rw [hra]; exact dispatch_report h, e1, ?_⟩
        rw [e2]
        by_cases hcase : s.current_report = some "BEPS" ∧
            matchesUnmet line = true
        · rw [if_pos ⟨hcase.1, List.cons_ne_nil _ _, hcase.2⟩,
            if_pos ⟨by simp [hh], hcase.1, List.cons_ne_nil _ _, hcase.2⟩]
        · rw [if_neg (fun hx => hcase ⟨hx.1, hx.2.2⟩),
            if_neg (fun hx => hcase ⟨hx.2.1, hx.2.2.2⟩)]

theorem runLines_unmet :
    ∀ (L : List String) (s : St) (i : Nat) (st : St),
      runLines s i L = .ok st → s.beps.unmet.cols.length = 4 →
      (st.beps.unmet_info, st.beps.unmet) =
        unmetSim s.current_report s.beps.unmet_info s.beps.unmet L := by
  intro L
  induction L with
  | nil =>
    intro s i st h hc
    cases h
    rfl
  | cons line rest ih =>
    intro s i st h hc
    unfold runLines at h
    rcases except_bind_ok h with ⟨s1, h1, h⟩
    obtain ⟨e1, e2, e3⟩ := lineStep_unmet h1 hc
    unfold unmetSim
    by_cases hcond : ¬ isHeaderLine line ∧ s.current_report = some "BEPS" ∧
        pySplit line ≠ [] ∧ matchesUnmet line = true
    · rw [if_pos hcond]
      rw [if_pos hcond] at e3
      have e31 := congrArg Prod.fst e3
      have e32 := congrArg Prod.snd e3
      dsimp only at e31 e32
      have := ih s1 (i + 1) st h (by rw [e2]; exact hc)
      rw [this, e1, e31, e32]
    · rw [if_neg hcond]
      rw [if_neg hcond] at e3
      have e31 := congrArg Prod.fst e3
      have e32 := congrArg Prod.snd e3
      dsimp only at e31 e32
      have := ih s1 (i + 1) st h (by rw [e2]; exact hc)
      rw [this, e1, e31, e32]

theorem unmetLines_cons (r : Option String) (line : String)
    (rest : List String) :
    unmetLines r (line :: rest) =
      (if ¬ isHeaderLine line ∧ r = some "BEPS" ∧ pySplit line ≠ [] ∧
          matchesUnmet line then
        line :: unmetLines (reportAfter r line) rest
      else unmetLines (reportAfter r line) rest) := rfl

theorem unmetSim_spec :
    ∀ (L : List String) (r : Option String) (u : List String)
      (t : Table String),
      u.length + (unmetLines r L).length ≤ 4 →
      (unmetSim r u t L).1 = u ++ (unmetLines r L).map unmetTok ∧
      (unmetSim r u t L).2 =
        (if u.length + (unmetLines r L).length = 4 ∧ unmetLines r L ≠ []
         then
          { t with rows := (upsertRow t.rows "Unmet"
              ((u ++ (unmetLines r L).map unmetTok).map Cell.val)) }
         else t) := by
  intro L
  induction L with
  | nil =>
    intro r u t hle
    simp [unmetSim, unmetLines]
  | cons line rest ih =>
    intro r u t hle
    unfold unmetSim
    rw [unmetLines_cons]
    by_cases hcond : ¬ isHeaderLine line ∧ r = some "BEPS" ∧
        pySplit line ≠ [] ∧ matchesUnmet line = true
    · rw [if_pos hcond]
      rw [unmetLines_cons, if_pos hcond] at hle
      simp only [List.length_cons] at hle
      have hu : u.length < 4 := by omega
      have hstep1 : (unmetStep u t line).1 = u ++ [unmetTok line] := by
        simp [unmetStep, hu]
      have hq : (unmetLines (reportAfter r line) rest).length ≤
          4 - (u.length + 1) := by omega
      by_cases h4 : u.length + 1 = 4
      · -- the appended token completes the 4-slot accumulator: commit now
        have hrest : unmetLines (reportAfter r line) rest = [] := by
          rcases hqq : unmetLines (reportAfter r line) rest with _ | ⟨a, as⟩
          · rfl
          · rw [hqq] at hq
            simp only [List.length_cons] at hq
            omega
        have hstep2 : (unmetStep u t line).2 =
            { t with rows := (upsertRow t.rows "Unmet"
                ((u ++ [unmetTok line]).map Cell.val)) } := by
          simp only [unmetStep, if_pos hu]
          rw [if_pos (by simp only [List.length_append,
            List.length_singleton]; omega)]
        obtain ⟨ih1, ih2⟩ := ih (reportAfter r line) (unmetStep u t line).1
          (unmetStep u t line).2 (by rw [hstep1, hrest]
                                     simp only [List.length_nil,
                                       List.length_append,
                                       List.length_singleton]
                                     omega)
        rw [if_pos hcond]
        constructor
        · rw [ih1, hstep1, hrest]
          simp
        · rw [ih2, hrest]
          simp only [List.length_nil, ne_eq, not_true_eq_false, and_false,
            if_false]
          rw [hstep2]
          rw [if_pos (by constructor
                         · simp only [List.length_cons, List.length_nil]
                           omega
                         · simp)]
          simp
      · -- still short of 4 values after this line: no commit yet
        have hstep2 : (unmetStep u t line).2 = t := by
          simp only [unmetStep, if_pos hu]
          rw [if_neg (by simp only [List.length_append,
            List.length_singleton]; omega)]
        obtain ⟨ih1, ih2⟩ := ih (reportAfter r line) (unmetStep u t line).1
          (unmetStep u t line).2 (by rw [hstep1]
                                     simp only [List.length_append,
                                       List.length_singleton]
                                     omega)
        rw [if_pos hcond]
        constructor
        · rw [ih1, hstep1]
          simp
        · rw [ih2, hstep2, hstep1]
          simp only [List.length_append, List.length_singleton,
            List.length_cons, List.map_cons, ne_eq]
          by_cases hrest : unmetLines (reportAfter r line) rest = []
          · rw [if_neg (fun hx => hx.2 hrest),
              if_neg (by rintro ⟨hx, -⟩; rw [hrest] at hx; simp only [List.length_nil] at hx; omega)]
          · by_cases hsum : u.length + 1 +
                (unmetLines (reportAfter r line) rest).length = 4
            · rw [if_pos ⟨by simp only [List.length_nil]; omega, hrest⟩,
                if_pos ⟨by omega, by simp⟩]
              simp
            · rw [if_neg (by rintro ⟨hx, -⟩; simp only [List.length_nil] at hx; omega),
                if_neg (by rintro ⟨hx, -⟩; omega)]
    · rw [if_neg hcond]
      rw [if_neg hcond]
      rw [unmetLines_cons, if_neg hcond] at hle
      exact ih (reportAfter r line) u t hle

/-- C5 (amended): for every document whose scan completes and whose
qualifying unmet-hours lines (non-header lines matching `unmet_pattern`
while BEPS is active) number exactly 4, the BEPS unmet table ends with
exactly one row, labeled `Unmet`, whose 4 values are exactly the last
whitespace tokens of those 4 lines, appended *unchanged* (no trailing
marker is stripped), and the accumulator holds exactly those 4 tokens —
so the row was committed once, from exactly those 4 source lines, and
the accumulator is never reused afterwards. -/
theorem beps_unmet_single_commit (doc : List String) (st : St)
    (h : parse_sim doc = .ok st)
    (h4 : (unmetLines none doc).length = 4) :
    st.beps.unmet.rows =
      [("Unmet", (unmetLines none doc).map (fun l => Cell.val (unmetTok l)))] ∧
    st.beps.unmet_info = (unmetLines none doc).map unmetTok := by
  unfold parse_sim at h
  have hrel := runLines_unmet doc _ 0 st h rfl
  have hspec := unmetSim_spec doc none [] (init_st
    (find_in_header doc (headerCapture psfHeaderLit) "PS-F")
    (find_in_header doc (headerCapture ssaHeaderLit) "SS-A")).beps.unmet
    (by rw [h4]; simp)
  rw [Prod.ext_iff] at hrel
  have h1 := hrel.1
  have h2 := hrel.2
  simp only [init_st] at h1 h2 hspec
  rw [h2, hspec.2,
    if_pos ⟨by simp [h4], by intro hx; rw [hx] at h4; simp at h4⟩]
  rw [h1, hspec.1]
  simp [upsertRow]

/-- C5 witness: the amended statement applied to the concrete document
`doc_beps_unmet`, whose BEPS section has exactly 4 qualifying lines. -/
theorem beps_unmet_single_commit_witness :
    (parse_sim doc_beps_unmet).map (fun st => st.beps.unmet.rows) =
      .ok [("Unmet",
        (unmetLines none doc_beps_unmet).map (fun l => Cell.val (unmetTok l)))]
      := by
  have hisok : (parse_sim doc_beps_unmet).isOk = true := by decide
  rcases hok : parse_sim doc_beps_unmet with e | st
  · rw [hok] at hisok
    simp [Except.isOk, Except.toBool] at hisok
  · have := beps_unmet_single_commit doc_beps_unmet st hok (by decide)
    simp only [Except.map]
    rw [this.1]

/-- C5 counterexample: the claim as stated says each qualifying line
contributes its last whitespace token "with any trailing marker
character stripped".  In `doc_beps_unmet` the first qualifying line's
last token is `1.6%`; the committed row stores `1.6%` verbatim, whereas
the claimed stripping would store `1.6`. -/
theorem unmet_marker_not_stripped_counterexample :
    (parse_sim doc_beps_unmet).map (fun st => rowAt st.beps.unmet "Unmet") =
      .ok (some
        [Cell.val "1.6%", Cell.val "0.", Cell.val "119", Cell.val "871"]) ∧
    spec_strip_marker "1.6%" = "1.6" ∧
    Cell.val "1.6%" ≠ Cell.val (spec_strip_marker "1.6%") := by
  refine ⟨by decide, by decide, by decide⟩

/-! ### C3 — the PS-F total-delimiter rename (spec-modelled) -/

/-- C3: spec §4.5 — on the total-delimiter line the current meter's
month axis is relabelled in place: the slot 3 positions from the end
changes from its placeholder month name to `TOTAL`; the row count and
the stored values are untouched; a subsequent `TOTAL` row write replaces
exactly that slot rather than appending a new row (spec-modelled: the
handler is absent from `src/`, witnessed only by `pim.py`'s
pre-allocated `TOTAL` index slot). -/
theorem ps_f_total_rename_slot (t t' : Table String)
    (hn : 3 ≤ t.rows.length) (hfree : "TOTAL" ∉ t.keys)
    (h : renameTotalSlot t = Except.ok t') :
    t'.keys = ps_f_total_rename t.keys ∧
    t'.rows.length = t.rows.length ∧
    t'.rows.map (fun p => p.2) = t.rows.map (fun p => p.2) ∧
    ∀ vs t'', t'.write "TOTAL" vs = Except.ok t'' →
      t''.rows = t'.rows.set (t.rows.length - 3) ("TOTAL", vs.map Cell.val) := by
  have hkl : t.keys.length = t.rows.length := by simp [Table.keys]
  have hrl : (ps_f_total_rename t.keys).length = t.rows.length := by
    simp [ps_f_total_rename, Table.keys]
  have hvl : (t.rows.map (fun p => p.2)).length = t.rows.length := by simp
  rw [renameTotalSlot, Table.setIndex, if_pos hrl] at h
  injection h with h
  subst h
  have hRl : ((ps_f_total_rename t.keys).zip
      (t.rows.map (fun p => p.2))).length = t.rows.length := by
    rw [List.length_zip _ _, hrl, hvl]
    exact Nat.min_self _
  refine ⟨?_, ?_, ?_, ?_⟩
  · show ((ps_f_total_rename t.keys).zip
        (t.rows.map (fun p => p.2))).map Prod.fst = ps_f_total_rename t.keys
    exact List.map_fst_zip _ _ (le_of_eq (by rw [hrl, hvl]))
  · exact hRl
  · show ((ps_f_total_rename t.keys).zip
        (t.rows.map (fun p => p.2))).map Prod.snd = t.rows.map (fun p => p.2)
    exact List.map_snd_zip _ _ (le_of_eq (by rw [hvl, hrl]))
  · intro vs t'' hw
    rw [Table.write] at hw
    split at hw
    · injection hw with hw
      subst hw
      show upsertRow ((ps_f_total_rename t.keys).zip
          (t.rows.map (fun p => p.2))) "TOTAL" (vs.map Cell.val) = _
      have hidx : t.rows.length - 3 < ((ps_f_total_rename t.keys).zip
          (t.rows.map (fun p => p.2))).length := by omega
      have hidxk : t.rows.length - 3 < (ps_f_total_rename t.keys).length := by
        omega
      have hi3 : t.keys.length - 3 = t.rows.length - 3 := by rw [hkl]
      have hkey : (ps_f_total_rename t.keys)[t.rows.length - 3] =
          "TOTAL" := by
        simp only [ps_f_total_rename]
        rw [List.getElem_set (by simpa [ps_f_total_rename] using hidxk),
          if_pos hi3]
      have hany : (((ps_f_total_rename t.keys).zip
          (t.rows.map (fun p => p.2))).any
            (fun p => decide (p.1 = "TOTAL"))) = true := by
        refine List.any_eq_true.mpr
          ⟨_, List.getElem_mem hidx, ?_⟩
        rw [List.getElem_zip]
        simp [hkey]
      rw [upsertRow, if_pos hany]
      apply List.ext_getElem (by simp)
      intro i h1 h2
      have hiR : i < ((ps_f_total_rename t.keys).zip
          (t.rows.map (fun p => p.2))).length := by simpa using h1
      have hik : i < (ps_f_total_rename t.keys).length := by omega
      have hiv : i < (t.rows.map (fun p => p.2)).length := by omega
      dsimp only
      rw [List.getElem_map _, List.getElem_set (by simpa using h2),
        List.getElem_zip]
      by_cases hc : t.rows.length - 3 = i
      · subst hc
        rw [hkey]
        simp
      · have hik' : i < t.keys.length := by omega
        have hkv : (ps_f_total_rename t.keys)[i] = t.keys[i] := by
          simp only [ps_f_total_rename]
          exact List.getElem_set_ne (by omega)
            (by simpa [ps_f_total_rename] using hik)
        have hne : t.keys[i] ≠ "TOTAL" := by
          intro hx
          exact hfree (hx ▸ List.getElem_mem hik')
        rw [if_neg hc, hkv]
        simp [hne]
    · exact absurd hw (by simp)

/-- C3 witness: the rename and a follow-up `TOTAL` write on the concrete
12-month axis table `month_axis_tbl`: slot 9 (`OCT`, 3 from the end)
becomes `TOTAL` and receives the written value in place. -/
theorem ps_f_total_rename_slot_witness :
    (3 ≤ month_axis_tbl.rows.length ∧ "TOTAL" ∉ month_axis_tbl.keys) ∧
    c3_renamed.keys = ps_f_total_rename month_axis_tbl.keys ∧
    c3_written.rows =
      c3_renamed.rows.set (month_axis_tbl.rows.length - 3)
        ("TOTAL", [Cell.val "42"]) := by
  have h0 : renameTotalSlot month_axis_tbl = Except.ok c3_renamed := by decide
  have hw : c3_renamed.write "TOTAL" ["42"] = Except.ok c3_written := by decide
  have hmain := ps_f_total_rename_slot month_axis_tbl c3_renamed
    (by decide) (by decide) h0
  exact ⟨⟨by decide, by decide⟩, hmain.1, hmain.2.2.2 ["42"] c3_written hw⟩

/-! ### C8 — writes keyed by an unregistered entity -/

/-- C8 (amended): a data-line write keyed by an entity name absent from
the report code's registry dict raises `KeyError` for that name in each
of the PS-F, SS-A, SS-B and PV-A branches — no new table is silently
created — and the error aborts that document's parse; the batch loop has
no handler, so the error stops the whole batch rather than continuing
with the next document. -/
theorem unregistered_entity_raises :
    (∀ (sys : String) (d : List (String × Table String)) (line h0 : String)
        (rest : List String),
      pySplit line = h0 :: rest → h0 ∈ months12 → lookupD d sys = none →
      ssaStep (some sys) d line = Except.error (PErr.keyError sys)) ∧
    (∀ (sys : String) (d : List (String × Table String)) (line h0 : String)
        (rest : List String),
      pySplit line = h0 :: rest → h0 ∈ months12 → lookupD d sys = none →
      ssbStep (some sys) d line = Except.error (PErr.keyError sys)) ∧
    (∀ (mt : String) (mo : Option String)
        (d : List (String × Table (String × String))) (line h0 : String)
        (rest : List String),
      split2sp line = h0 :: rest → (h0 = "KWH" ∨ h0 = "MAX KW") →
      lookupD d mt = none →
      psfStep (some mt) mo d line = Except.error (PErr.keyError mt)) ∧
    (∀ (pe : String) (d : List (String × Table String)) (line : String)
        (next? : Option String) (name : String),
      startsWord line = true → containsStr line "REPORT-" = false →
      matchUpToGap line = some name → matchPlantEquip line = none →
      lookupD d pe = none →
      pvaStep (some pe) d line next? = Except.error (PErr.keyError pe)) ∧
    (∀ (doc : List String) (docs : List (List String)) (e : PErr),
      parse_sim doc = Except.error e →
      runBatch (doc :: docs) = Except.error e) := by
  refine ⟨?_, ?_, ?_, ?_, ?_⟩
  · intro sys d line h0 rest hsp hmem hlk
    have hE : lookupE d sys = Except.error (PErr.keyError sys) := by
      simp [lookupE, hlk]
    unfold ssaStep
    rw [hsp,
      except_bind_eq (show listGet (h0 :: rest) 0 = Except.ok h0 from rfl),
      if_pos hmem,
      except_bind_eq
        (show reqName "current_sys" (some sys) = Except.ok sys from rfl),
      except_bind_error hE]
  · intro sys d line h0 rest hsp hmem hlk
    have hE : lookupE d sys = Except.error (PErr.keyError sys) := by
      simp [lookupE, hlk]
    unfold ssbStep
    rw [hsp,
      except_bind_eq (show listGet (h0 :: rest) 0 = Except.ok h0 from rfl),
      if_pos hmem,
      except_bind_eq
        (show reqName "current_sys" (some sys) = Except.ok sys from rfl),
      except_bind_error hE]
  · intro mt mo d line h0 rest hsp hcase hlk
    have hE : lookupE d mt = Except.error (PErr.keyError mt) := by
      simp [lookupE, hlk]
    unfold psfStep
    rw [hsp,
      except_bind_eq (show listGet (h0 :: rest) 0 = Except.ok h0 from rfl),
      if_pos hcase,
      except_bind_eq
        (show reqName "current_meter" (some mt) = Except.ok mt from rfl),
      except_bind_error hE]
  · intro pe d line next? name hsw hcs hmg hmpe hlk
    have hE : lookupE d pe = Except.error (PErr.keyError pe) := by
      simp [lookupE, hlk]
    have hpl : pvaPlant (some pe) line = some pe := by
      simp [pvaPlant, hmpe]
    unfold pvaStep
    rw [if_pos (show (startsWord line = true) ∧
        ¬ (containsStr line "REPORT-" = true) from ⟨hsw, by simp [hcs]⟩)]
    simp only [hmg]
    rw [hpl,
      except_bind_eq (show reqPlantKey (some pe) = Except.ok pe from rfl),
      except_bind_error hE]
  · intro doc docs e hpe
    rw [runBatch, List.mapM_cons parse_sim, hpe]
    rfl

/-- C8 witness: the SS-B branch applied to an empty registry, and the
batch conjunct applied to `doc_ssb_unregistered` (whose SS-B header
names a system no SS-A header pre-scanned). -/
theorem unregistered_entity_raises_witness :
    ssbStep (some "SYS2") [] "JAN  1  2  3  4  5  6  7  8\n" =
      Except.error (PErr.keyError "SYS2") ∧
    runBatch [doc_ssb_unregistered, []] =
      Except.error (PErr.keyError "SYS2") := by
  refine ⟨?_, ?_⟩
  · exact unregistered_entity_raises.2.1 "SYS2" [] "JAN  1  2  3  4  5  6  7  8\n"
      "JAN" ["1", "2", "3", "4", "5", "6", "7", "8"]
      (by decide) (by decide) (by decide)
  · exact unregistered_entity_raises.2.2.2.2 doc_ssb_unregistered [[]]
      (PErr.keyError "SYS2") (by decide)

/-- C8 counterexample: the claim says a batch "continues with the next
document" after one document's parse aborts.  `multi_sim` wraps
`parse_sim` in no `try`/`except`: the batch
`[doc_ssb_unregistered, []]` dies on the first document's `KeyError`
even though the second document on its own parses fine. -/
theorem batch_stops_counterexample :
    runBatch [doc_ssb_unregistered, ["x\n"]] =
      Except.error (PErr.keyError "SYS2") ∧
    (parse_sim (["x\n"] : List String)).isOk = true := by
  exact ⟨by decide, by decide⟩

/-! ### C10 — the THERM re-index of the current meter's table -/

/-- C10: on a line whose first run-of-2+-whitespace field is `THERM` or
`MAX THERM/HR`, the PS-F handler replaces the whole Month × Measure
index of the current meter's 60-row table with the freshly built
`therm_index` (measure level `Therm`, `Max Therm/Hr`, `Day/Hour`,
`Peak End Use`, `Peak Pct`) before writing: every previously written
row is relabelled positionally with its values kept, the written row
lands inside the re-indexed table without growing it, and the tables of
all other meters are unchanged. -/
theorem therm_reindex_frame (meter mo : String)
    (d : List (String × Table (String × String)))
    (T : Table (String × String)) (line h0 : String) (rest : List String)
    (hsp : split2sp line = h0 :: rest)
    (hcase : h0 = "THERM" ∨ h0 = "MAX THERM/HR")
    (hmon : matchMonth line = none)
    (hlk : lookupD d meter = some T)
    (hrows : T.rows.length = 60)
    (hvs : (pySliceLast 13 (pySplit line)).length = T.cols.length)
    (hkey : (mo, measure_dict h0) ∈ therm_index) :
    psfStep (some meter) (some mo) d line =
      Except.ok (some mo, updateD d meter
        ⟨T.cols, upsertRow (therm_index.zip (T.rows.map (fun p => p.2)))
          (mo, measure_dict h0)
          ((pySliceLast 13 (pySplit line)).map Cell.val)⟩) ∧
    (therm_index.zip (T.rows.map (fun p => p.2))).map Prod.fst =
      therm_index ∧
    (therm_index.zip (T.rows.map (fun p => p.2))).map Prod.snd =
      T.rows.map (fun p => p.2) ∧
    (upsertRow (therm_index.zip (T.rows.map (fun p => p.2)))
      (mo, measure_dict h0)
      ((pySliceLast 13 (pySplit line)).map Cell.val)).length = 60 ∧
    ∀ m', m' ≠ meter →
      lookupD (updateD d meter
        ⟨T.cols, upsertRow (therm_index.zip (T.rows.map (fun p => p.2)))
          (mo, measure_dict h0)
          ((pySliceLast 13 (pySplit line)).map Cell.val)⟩) m' =
      lookupD d m' := by
  have htil : therm_index.length = 60 := by decide
  have hTl : (T.rows.map (fun p => p.2)).length = 60 := by simp [hrows]
  have hfst : (therm_index.zip (T.rows.map (fun p => p.2))).map Prod.fst =
      therm_index :=
    List.map_fst_zip _ _ (le_of_eq (by rw [hTl, htil]))
  refine ⟨?_, hfst, ?_, ?_, ?_⟩
  · unfold psfStep
    rw [hsp]
    simp only [hmon]
    rw [except_bind_eq (show listGet (h0 :: rest) 0 = Except.ok h0 from rfl),
      if_neg (show ¬ (h0 = "KWH" ∨ h0 = "MAX KW") by
        rcases hcase with rfl | rfl <;> decide),
      if_pos hcase,
      except_bind_eq
        (show reqName "current_meter" (some meter) = Except.ok meter from rfl),
      except_bind_eq (show lookupE d meter = Except.ok T from by
        simp [lookupE, hlk]),
      except_bind_eq (show T.setIndex therm_index =
          Except.ok ⟨T.cols, therm_index.zip (T.rows.map (fun p => p.2))⟩ from
        by rw [Table.setIndex, if_pos (by rw [hrows]; decide)]),
      except_bind_eq
        (show reqName "current_month" (some mo) = Except.ok mo from rfl),
      except_bind_eq (show Table.write
          ⟨T.cols, therm_index.zip (T.rows.map (fun p => p.2))⟩
          (mo, measure_dict h0) (pySliceLast 13 (pySplit line)) =
          Except.ok ⟨T.cols,
            upsertRow (therm_index.zip (T.rows.map (fun p => p.2)))
              (mo, measure_dict h0)
              ((pySliceLast 13 (pySplit line)).map Cell.val)⟩ from by
        rw [Table.write, if_pos hvs])]
    rfl
  · exact List.map_snd_zip _ _ (le_of_eq (by rw [htil, hTl]))
  · have hkey' : (mo, measure_dict h0) ∈
        (therm_index.zip (T.rows.map (fun p => p.2))).map Prod.fst := by
      rw [hfst]; exact hkey
    rcases List.mem_map.mp hkey' with ⟨p, hp, hpf⟩
    have hany : ((therm_index.zip (T.rows.map (fun p => p.2))).any
        (fun q => decide (q.1 = (mo, measure_dict h0)))) = true :=
      List.any_eq_true.mpr ⟨p, hp, by simp [hpf]⟩
    rw [upsertRow, if_pos hany]
    simp only [List.length_map]
    rw [List.length_zip _ _, hTl, htil]
    exact Nat.min_self 60
  · intro m' hne
    exact lookupD_updateD_other d meter m' _ hne

/-- C10 witness: a concrete `THERM` line against a one-meter registry —
the meter's 60 rows get the `therm_index` labels and the table of the
(only) meter keeps exactly 60 rows. -/
theorem therm_reindex_frame_witness :
    (psfStep (some "GAS") (some "JAN") (create_ps_f_dict ["GAS"])
        therm_line).map
      (fun r => (r.1, r.2.map (fun p => (p.1, p.2.keys, p.2.rows.length)))) =
      Except.ok (some "JAN", [("GAS", (therm_index, 60))]) := by
  have hsp : split2sp therm_line = "THERM" :: c10_rest := by decide
  have hlk : lookupD (create_ps_f_dict ["GAS"]) "GAS" = some c10_tbl := by
    decide
  have h := therm_reindex_frame "GAS" "JAN" (create_ps_f_dict ["GAS"])
    c10_tbl therm_line "THERM" c10_rest hsp (Or.inl rfl) (by decide) hlk
    (by decide) (by decide) (by decide)
  rw [h.1]
  rfl

/-! ### C6 — the PV-A boiler/chiller partition -/

theorem dispatch_pva_keys {s s' : St} {i : Nat} {line : String}
    {next? : Option String} (h : dispatch s i line next? = .ok s')
    (hd : DictWF s.pv_a) : keysD s'.pv_a = keysD s.pv_a := by
  unfold dispatch at h
  split at h
  · split at h
    · rcases except_bind_ok h with ⟨b, h1, h⟩
      cases except_pure_ok h
      rfl
    · cases except_pure_ok h
      rfl
  · split at h
    · rcases except_bind_ok h with ⟨t, h1, h⟩
      cases except_pure_ok h
      rfl
    · cases except_pure_ok h
      rfl
  · split at h
    · rcases except_bind_ok h with ⟨r, h1, h⟩
      cases except_pure_ok h
      rfl
    · cases except_pure_ok h
      rfl
  · split at h
    · rcases except_bind_ok h with ⟨d2, h1, h⟩
      cases except_pure_ok h
      rfl
    · cases except_pure_ok h
      rfl
  · split at h
    · rcases except_bind_ok h with ⟨d2, h1, h⟩
      cases except_pure_ok h
      rfl
    · cases except_pure_ok h
      rfl
  · rcases except_bind_ok h with ⟨r, h1, h⟩
    cases except_pure_ok h
    exact (pvaStep_spec h1 hd).2
  · split at h
    · rcases except_bind_ok h with ⟨r, h1, h⟩
      cases except_pure_ok h
      rfl
    · cases except_pure_ok h
      rfl
  · cases except_pure_ok h
    rfl

theorem lineStep_pva_keys {s s' : St} {i : Nat} {line : String}
    {next? : Option String} (h : lineStep s i line next? = .ok s')
    (hd : DictWF s.pv_a) : keysD s'.pv_a = keysD s.pv_a := by
  unfold lineStep at h
  split at h
  · split at h
    · rw [(headerStep_frame h).2.2.2.2.1]
    · exact dispatch_pva_keys h hd
  · exact dispatch_pva_keys h hd

theorem runLines_pva_keys :
    ∀ (L : List String) (s : St) (i : Nat) (st : St),
      runLines s i L = .ok st → s.WF → keysD st.pv_a = keysD s.pv_a := by
  intro L
  induction L with
  | nil =>
    intro s i st h hw
    cases h
    rfl
  | cons line rest ih =>
    intro s i st h hw
    unfold runLines at h
    rcases except_bind_ok h with ⟨s1, h1, h⟩
    rw [ih s1 (i + 1) st h (lineStep_wf h1 hw),
      lineStep_pva_keys h1 hw.2.2.2.2.1]

/-- What `post_process_pv_a` leaves at the `PRIMARY EQUIPMENT`,
`BOILERS` and `CHILLERS` keys, as a function of the coerced primary
frame `pc`. -/
theorem post_pv_a_out (t1 t2 t3 t4 t5 : Table String)
    (d' : List (String × Table String)) (pc : Table String)
    (h : post_process_pv_a
        [("CIRCULATION LOOPS", t1), ("PUMPS", t2),
         ("PRIMARY EQUIPMENT", t3), ("COOLING TOWERS", t4),
         ("DW-HEATERS", t5)] = Except.ok d')
    (hpc : strictCoerceCols t3
        ["Capacity (mmBTU/hr)", "Flow (GPM)", "EIR", "HIR", "Aux. (kW)"] =
      Except.ok pc) :
    "PRIMARY EQUIPMENT" ∉ keysD d' ∧
    lookupD d' "BOILERS" = some (addCol
      { pc with rows := pc.rows.filter (fun p => isHWRow pc p.2) }
      "Thermal Eff"
      (fun r => cellOp1 (fun h => 1 / h) (cellAt pc "HIR" r))) ∧
    lookupD d' "CHILLERS" = some (addCol (addCol (addCol
      { pc with rows := pc.rows.filter (fun p => ! isHWRow pc p.2) }
      "COP" (fun r => cellOp1 (fun e => 1 / e) (cellAt pc "EIR" r)))
      "kW/ton" (fun r => cellOp1 (fun cop => 12 / (cop * (3412 / 1000 : ℚ)))
        (cellAt (addCol
          { pc with rows := pc.rows.filter (fun p => ! isHWRow pc p.2) }
          "COP" (fun r => cellOp1 (fun e => 1 / e) (cellAt pc "EIR" r)))
          "COP" r)))
      "GPM/ton" (fun r => cellOp (fun f c => f * 12 / (1000 * c))
        (cellAt pc "Flow (GPM)" r)
        (cellAt pc "Capacity (mmBTU/hr)" r))) := by
  unfold post_process_pv_a at h
  rcases except_bind_ok h with ⟨c1, hc1, h⟩
  rcases except_bind_ok h with ⟨u1, hu1, h⟩
  rcases except_bind_ok h with ⟨c2, hc2, h⟩
  rcases except_bind_ok h with ⟨p2, hp2, h⟩
  rcases except_bind_ok h with ⟨c4, hc4, h⟩
  rcases except_bind_ok h with ⟨p4, hp4, h⟩
  rcases except_bind_ok h with ⟨c3, hc3, h⟩
  have hl3 := lookupE_ok hc3
  rw [lookupD_updateD_other _ "COOLING TOWERS" "PRIMARY EQUIPMENT" _
      (by decide),
    lookupD_updateD_other _ "PUMPS" "PRIMARY EQUIPMENT" _ (by decide)]
    at hl3
  have e3 : t3 = c3 := by
    have h0 : lookupD
        [("CIRCULATION LOOPS", t1), ("PUMPS", t2),
         ("PRIMARY EQUIPMENT", t3), ("COOLING TOWERS", t4),
         ("DW-HEATERS", t5)] "PRIMARY EQUIPMENT" = some t3 := rfl
    rw [h0] at hl3
    exact Option.some.inj hl3
  subst e3
  rcases except_bind_ok h with ⟨pc2, hp3, h⟩
  rw [hpc] at hp3
  injection hp3 with hp3
  subst hp3
  split at h
  · rcases except_bind_ok h with ⟨c5, hc5, h⟩
    rcases except_bind_ok h with ⟨p5, hp5, h⟩
    cases except_pure_ok h
    refine ⟨?_, ?_, ?_⟩
    · simp +decide [keysD, updateD, removeD]
    · simp +decide [lookupD, updateD, removeD, List.find?]
    · simp +decide [lookupD, updateD, removeD, List.find?]
  · exact absurd h (by simp)

/-- C6: (1) during the scan, the PV-A dict's keys stay the five
allocation-time class names for every document — no `BOILERS` or
`CHILLERS` table exists before post-processing; (2) `post_process_pv_a`
removes `PRIMARY EQUIPMENT` and adds `BOILERS` (the rows whose
`Equipment Type` contains `HW`, gaining only `Thermal Eff = 1/HIR`) and
`CHILLERS` (the remaining rows, gaining `COP`, `kW/ton` and `GPM/ton`),
and each coerced primary row goes to exactly one of the two filtered row
sets according to the `HW` substring test. -/
theorem pv_a_partition :
    (∀ (doc : List String) (st : St), parse_sim doc = Except.ok st →
      keysD st.pv_a =
        ["CIRCULATION LOOPS", "PUMPS", "PRIMARY EQUIPMENT",
         "COOLING TOWERS", "DW-HEATERS"]) ∧
    (∀ (t1 t2 t3 t4 t5 : Table String)
        (d' : List (String × Table String)) (pc : Table String),
      post_process_pv_a
          [("CIRCULATION LOOPS", t1), ("PUMPS", t2),
           ("PRIMARY EQUIPMENT", t3), ("COOLING TOWERS", t4),
           ("DW-HEATERS", t5)] = Except.ok d' →
      strictCoerceCols t3
          ["Capacity (mmBTU/hr)", "Flow (GPM)", "EIR", "HIR", "Aux. (kW)"] =
        Except.ok pc →
      "PRIMARY EQUIPMENT" ∉ keysD d' ∧
      lookupD d' "BOILERS" = some (addCol
        { pc with rows := pc.rows.filter (fun p => isHWRow pc p.2) }
        "Thermal Eff"
        (fun r => cellOp1 (fun h => 1 / h) (cellAt pc "HIR" r))) ∧
      lookupD d' "CHILLERS" = some (addCol (addCol (addCol
        { pc with rows := pc.rows.filter (fun p => ! isHWRow pc p.2) }
        "COP" (fun r => cellOp1 (fun e => 1 / e) (cellAt pc "EIR" r)))
        "kW/ton" (fun r => cellOp1 (fun cop => 12 / (cop * (3412 / 1000 : ℚ)))
          (cellAt (addCol
            { pc with rows := pc.rows.filter (fun p => ! isHWRow pc p.2) }
            "COP" (fun r => cellOp1 (fun e => 1 / e) (cellAt pc "EIR" r)))
            "COP" r)))
        "GPM/ton" (fun r => cellOp (fun f c => f * 12 / (1000 * c))
          (cellAt pc "Flow (GPM)" r)
          (cellAt pc "Capacity (mmBTU/hr)" r))) ∧
      (addCol { pc with rows := pc.rows.filter (fun p => isHWRow pc p.2) }
        "Thermal Eff"
        (fun r => cellOp1 (fun h => 1 / h) (cellAt pc "HIR" r))).cols =
        pc.cols ++ ["Thermal Eff"] ∧
      (∀ k v, (k, v) ∈ pc.rows →
        (isHWRow pc v = true →
          (k, v) ∈ pc.rows.filter (fun p => isHWRow pc p.2) ∧
          (k, v) ∉ pc.rows.filter (fun p => ! isHWRow pc p.2)) ∧
        (isHWRow pc v = false →
          (k, v) ∈ pc.rows.filter (fun p => ! isHWRow pc p.2) ∧
          (k, v) ∉ pc.rows.filter (fun p => isHWRow pc p.2)))) := by
  constructor
  · intro doc st h
    unfold parse_sim at h
    rw [runLines_pva_keys doc _ 0 st h (init_st_wf _ _)]
    rfl
  · intro t1 t2 t3 t4 t5 d' pc h hpc
    obtain ⟨ha, hb, hc⟩ := post_pv_a_out t1 t2 t3 t4 t5 d' pc h hpc
    refine ⟨ha, hb, hc, rfl, ?_⟩
    intro k v hin
    constructor
    · intro hhw
      refine ⟨List.mem_filter.mpr ⟨hin, hhw⟩, ?_⟩
      intro hmem
      have hx := (List.mem_filter.mp hmem).2
      simp [hhw] at hx
    · intro hhw
      refine ⟨List.mem_filter.mpr ⟨hin, by simp [hhw]⟩, ?_⟩
      intro hmem
      have hx := (List.mem_filter.mp hmem).2
      simp [hhw] at hx

/-- C6 witness: the scan part applied to a one-line document, and the
partition applied to the concrete scan output `pva_dict_example` — the
boiler row (`Equipment Type` contains `HW`) lands alone in `BOILERS`,
the chiller row alone in `CHILLERS`, and `PRIMARY EQUIPMENT` is gone. -/
theorem pv_a_partition_witness :
    (parse_sim ["x\n"]).map (fun st => keysD st.pv_a) =
      Except.ok ["CIRCULATION LOOPS", "PUMPS", "PRIMARY EQUIPMENT",
        "COOLING TOWERS", "DW-HEATERS"] ∧
    (post_process_pv_a pva_dict_example).map (fun d' =>
        ((lookupD d' "BOILERS").map Table.keys,
         (lookupD d' "CHILLERS").map Table.keys,
         decide ("PRIMARY EQUIPMENT" ∈ keysD d'))) =
      Except.ok (some ["BOILER-1"], some ["CHLR-1"], false) := by
  constructor
  · rcases hok : parse_sim ["x\n"] with e | st
    · exfalso
      have hisok : (parse_sim (["x\n"] : List String)).isOk = true := by
        decide
      rw [hok] at hisok
      simp [Except.isOk, Except.toBool] at hisok
    · simp only [Except.map]
      rw [pv_a_partition.1 ["x\n"] st hok]
  · rcases hok : post_process_pv_a pva_dict_example with e | d'
    · exfalso
      have hisok : (post_process_pv_a pva_dict_example).isOk = true := by
        decide
      rw [hok] at hisok
      simp [Except.isOk, Except.toBool] at hisok
    · have hpc : strictCoerceCols primary_example
          ["Capacity (mmBTU/hr)", "Flow (GPM)", "EIR", "HIR", "Aux. (kW)"] =
          Except.ok c6_pc := by decide
      have h2 := pv_a_partition.2 ⟨loop_info_cols, []⟩ ⟨pump_info_cols, []⟩
        primary_example ⟨ct_info_cols, []⟩ ⟨dhw_info_cols, []⟩ d' c6_pc
        hok hpc
      simp only [Except.map]
      rw [h2.2.1, h2.2.2.1, decide_eq_false h2.1]
      decide

/-! ### C9 — the chiller COP and kW/ton formulas -/

theorem cellAt_cols_congr {κ κ' : Type} (t : Table κ) (t' : Table κ')
    (hn : t.cols = t'.cols) (name : String) (r : List Cell) :
    cellAt t name r = cellAt t' name r := by
  simp [cellAt, hn]

/-- Row membership in a table extended by a derived column. -/
theorem mem_addCol {κ : Type} (t : Table κ) (n : String)
    (f : List Cell → Cell) (k : κ) (v : List Cell) :
    (k, v) ∈ (addCol t n f).rows ↔
      ∃ w, (k, w) ∈ t.rows ∧ v = w ++ [f w] := by
  simp only [addCol, List.mem_map]
  constructor
  · rintro ⟨p, hp, he⟩
    injection he with he1 he2
    exact ⟨p.2, by rw [← he1]; exact hp, he2.symm⟩
  · rintro ⟨w, hw, he⟩
    exact ⟨(k, w), hw, by rw [he]⟩

/-- Slot access in a 7-cell row extended by the three derived chiller
cells. -/
theorem getD_ext3 (w : List Cell) (a1 a2 a3 : Cell) (hw : w.length = 7) :
    ((((w ++ [a1]) ++ [a2]) ++ [a3]).getD 7 Cell.nan = a1) ∧
    ((((w ++ [a1]) ++ [a2]) ++ [a3]).getD 8 Cell.nan = a2) ∧
    (∀ i, i < 7 → (((w ++ [a1]) ++ [a2]) ++ [a3]).getD i Cell.nan =
      w.getD i Cell.nan) ∧
    ((w ++ [a1]).getD 7 Cell.nan = a1) := by
  refine ⟨?_, ?_, ?_, ?_⟩
  · rw [List.getD_append _ _ _ _ (by simp [hw]),
      List.getD_append _ _ _ _ (by simp [hw]),
      List.getD_append_right _ _ _ _ (by simp [hw])]
    simp [hw]
  · rw [List.getD_append _ _ _ _ (by simp [hw]),
      List.getD_append_right _ _ _ _ (by simp [hw])]
    simp [hw]
  · intro i hi
    rw [List.getD_append _ _ _ _ (by simp [hw]; omega),
      List.getD_append _ _ _ _ (by simp [hw]; omega),
      List.getD_append _ _ _ _ (by simp [hw]; omega)]
  · rw [List.getD_append_right _ _ _ _ (by simp [hw])]
    simp [hw]

/-- C9 (amended): in PV-A post-processing every chiller row's derived
cells satisfy COP = 1/EIR and kW/ton = 12/(COP × 3.412); at EIR = 0.25
this gives COP = 4 and kW/ton = 750/853 = 0.879249…, which is 0.8792 at
4 decimal places (not 0.8794). -/
theorem chiller_metric_formulas :
    (∀ (t1 t2 t3 t4 t5 : Table String)
        (d' : List (String × Table String)) (pc C : Table String),
      post_process_pv_a
          [("CIRCULATION LOOPS", t1), ("PUMPS", t2),
           ("PRIMARY EQUIPMENT", t3), ("COOLING TOWERS", t4),
           ("DW-HEATERS", t5)] = Except.ok d' →
      strictCoerceCols t3
          ["Capacity (mmBTU/hr)", "Flow (GPM)", "EIR", "HIR", "Aux. (kW)"] =
        Except.ok pc →
      pc.cols = primary_info_cols →
      (∀ p ∈ pc.rows, (p.2 : List Cell).length = 7) →
      lookupD d' "CHILLERS" = some C →
      ∀ k v, (k, v) ∈ C.rows →
        cellAt C "COP" v = cellOp1 (fun e => 1 / e) (cellAt C "EIR" v) ∧
        cellAt C "kW/ton" v =
          cellOp1 (fun cop => 12 / (cop * (3412 / 1000 : ℚ)))
            (cellAt C "COP" v)) ∧
    cellOp1 (fun e => 1 / e) (Cell.num (mkRat 25 100)) = Cell.num 4 ∧
    cellOp1 (fun cop => 12 / (cop * (3412 / 1000 : ℚ))) (Cell.num 4) =
      Cell.num (750/853) ∧
    |750/853 - (8792/10000 : ℚ)| ≤ 1/20000 := by
  refine ⟨?_, ?_, ?_, ?_⟩
  · intro t1 t2 t3 t4 t5 d' pc C h hpc hcols hlen hC
    obtain ⟨-, -, hc⟩ := post_pv_a_out t1 t2 t3 t4 t5 d' pc h hpc
    rw [hC] at hc
    injection hc with hc
    subst hc
    intro k v hv
    rcases (mem_addCol _ _ _ _ _).mp hv with ⟨v2, hv2, he3⟩
    rcases (mem_addCol _ _ _ _ _).mp hv2 with ⟨v1, hv1, he2⟩
    rcases (mem_addCol _ _ _ _ _).mp hv1 with ⟨w, hw, he1⟩
    subst he1
    subst he2
    subst he3
    have hw7 : w.length = 7 := hlen (k, w) (List.mem_filter.mp hw).1
    have ePC : ∀ name r, cellAt pc name r =
        cellAt (⟨primary_info_cols, []⟩ : Table String) name r :=
      fun name r => cellAt_cols_congr _ _ (by rw [hcols]) name r
    have eMid : ∀ name r, cellAt (addCol
        { pc with rows := pc.rows.filter (fun p => ! isHWRow pc p.2) }
        "COP" (fun r => cellOp1 (fun e => 1 / e) (cellAt pc "EIR" r)))
        name r =
        cellAt (⟨primary_info_cols ++ ["COP"], []⟩ : Table String) name r :=
      fun name r => cellAt_cols_congr _ _ (by simp [addCol, hcols]) name r
    have eC : ∀ name r, cellAt (addCol (addCol (addCol
        { pc with rows := pc.rows.filter (fun p => ! isHWRow pc p.2) }
        "COP" (fun r => cellOp1 (fun e => 1 / e) (cellAt pc "EIR" r)))
        "kW/ton" (fun r => cellOp1 (fun cop => 12 / (cop * (3412 / 1000 : ℚ)))
          (cellAt (addCol
            { pc with rows := pc.rows.filter (fun p => ! isHWRow pc p.2) }
            "COP" (fun r => cellOp1 (fun e => 1 / e) (cellAt pc "EIR" r)))
            "COP" r)))
        "GPM/ton" (fun r => cellOp (fun f c => f * 12 / (1000 * c))
          (cellAt pc "Flow (GPM)" r)
          (cellAt pc "Capacity (mmBTU/hr)" r))) name r =
        cellAt (⟨((primary_info_cols ++ ["COP"]) ++ ["kW/ton"]) ++
          ["GPM/ton"], []⟩ : Table String) name r :=
      fun name r => cellAt_cols_congr _ _ (by simp [addCol, hcols]) name r
    have eCOP : ∀ r : List Cell, cellAt (⟨((primary_info_cols ++ ["COP"]) ++
        ["kW/ton"]) ++ ["GPM/ton"], []⟩ : Table String) "COP" r =
        r.getD 7 Cell.nan := fun r => rfl
    have eEIR : ∀ r : List Cell, cellAt (⟨((primary_info_cols ++ ["COP"]) ++
        ["kW/ton"]) ++ ["GPM/ton"], []⟩ : Table String) "EIR" r =
        r.getD 4 Cell.nan := fun r => rfl
    have eKW : ∀ r : List Cell, cellAt (⟨((primary_info_cols ++ ["COP"]) ++
        ["kW/ton"]) ++ ["GPM/ton"], []⟩ : Table String) "kW/ton" r =
        r.getD 8 Cell.nan := fun r => rfl
    have eCOP8 : ∀ r : List Cell, cellAt
        (⟨primary_info_cols ++ ["COP"], []⟩ : Table String) "COP" r =
        r.getD 7 Cell.nan := fun r => rfl
    constructor
    · rw [eC, eC, eCOP, eEIR, (getD_ext3 w _ _ _ hw7).1,
        (getD_ext3 w _ _ _ hw7).2.2.1 4 (by omega), ePC]
      rfl
    · rw [eC, eC, eKW, eCOP, (getD_ext3 w _ _ _ hw7).2.1,
        (getD_ext3 w _ _ _ hw7).1, eMid, eCOP8,
        (getD_ext3 w _ Cell.nan Cell.nan hw7).2.2.2]
  · show Cell.num (1 / mkRat 25 100) = Cell.num 4
    have h4 : (1 / mkRat 25 100 : ℚ) = 4 := by norm_num [Rat.mkRat_eq_div]
    rw [h4]
  · show Cell.num (12 / ((4 : ℚ) * (3412 / 1000))) = Cell.num (750/853)
    have hq : (12 / ((4 : ℚ) * (3412 / 1000))) = 750/853 := by norm_num
    rw [hq]
  · rw [abs_le]
    constructor <;> norm_num

/-- C9 counterexample: at EIR = 0.25 the pipeline's exact formulas give
kW/ton = 750/853 = 0.879249…, which is not within half an ulp of the
claim's "≈ 0.8794" (its 4-decimal rounding is 0.8792). -/
theorem chiller_kw_ton_rounding_counterexample :
    cellOp1 (fun cop => 12 / (cop * (3412 / 1000 : ℚ)))
      (cellOp1 (fun e => 1 / e) (Cell.num (mkRat 25 100))) =
      Cell.num (750/853) ∧
    ¬ (|750/853 - (8794/10000 : ℚ)| ≤ 1/20000) := by
  constructor
  · show Cell.num (12 / ((1 / mkRat 25 100) * (3412 / 1000 : ℚ))) =
      Cell.num (750/853)
    have hq : (12 / ((1 / mkRat 25 100) * (3412 / 1000 : ℚ))) = 750/853 := by
      norm_num [Rat.mkRat_eq_div]
    rw [hq]
  · rw [abs_le]
    norm_num

/-- C9 witness: the formula part applied to the pipeline output for
`pva_dict_example`, whose single chiller row has EIR = 0.25: the COP
cell evaluates to 4 and the kW/ton cell to 750/853. -/
theorem chiller_metric_formulas_witness :
    ((post_process_pv_a pva_dict_example).map (fun d' =>
        (lookupD d' "CHILLERS").map (fun C =>
          C.rows.map (fun p =>
            ((cellAt C "COP" p.2).toQ, (cellAt C "kW/ton" p.2).toQ))))) =
      Except.ok (some [(some 4, some (750/853))]) := by
  rcases hok : post_process_pv_a pva_dict_example with e | d'
  · exfalso
    have hisok : (post_process_pv_a pva_dict_example).isOk = true := by
      decide
    rw [hok] at hisok
    simp [Except.isOk, Except.toBool] at hisok
  · have hpc : strictCoerceCols primary_example
        ["Capacity (mmBTU/hr)", "Flow (GPM)", "EIR", "HIR", "Aux. (kW)"] =
        Except.ok c6_pc := by decide
    obtain ⟨-, -, hc⟩ := post_pv_a_out ⟨loop_info_cols, []⟩
      ⟨pump_info_cols, []⟩ primary_example ⟨ct_info_cols, []⟩
      ⟨dhw_info_cols, []⟩ d' c6_pc hok hpc
    have hc9 : lookupD d' "CHILLERS" = some c9_chl := hc
    have hmain := chiller_metric_formulas.1 ⟨loop_info_cols, []⟩
      ⟨pump_info_cols, []⟩ primary_example ⟨ct_info_cols, []⟩
      ⟨dhw_info_cols, []⟩ d' c6_pc c9_chl hok hpc (by decide) (by decide)
      hc9
    simp only [Except.map]
    rw [hc9]
    simp only [Option.map]
    obtain ⟨q, hq⟩ := List.length_eq_one.mp
      (show c9_chl.rows.length = 1 by decide)
    have hqmem : q ∈ c9_chl.rows := by
      rw [hq]
      exact List.mem_singleton.mpr rfl
    obtain ⟨e1, e2⟩ := hmain q.1 q.2 hqmem
    rw [hq]
    simp only [List.map_cons, List.map_nil]
    rw [e2, e1]
    have h4 : q.2.getD 4 Cell.nan = Cell.num (mkRat 1 4) := by
      have h0 := congrArg (fun l => (l.getD 0 ("", [])).2.getD 4 Cell.nan) hq
      dsimp only at h0
      have h0a : (c9_chl.rows.getD 0 ("", [])).2.getD 4 Cell.nan =
          q.2.getD 4 Cell.nan := h0
      rw [← h0a]
      decide
    have eEIR9 : cellAt c9_chl "EIR" q.2 = q.2.getD 4 Cell.nan :=
      cellAt_cols_congr c9_chl
        (⟨((primary_info_cols ++ ["COP"]) ++ ["kW/ton"]) ++ ["GPM/ton"],
          []⟩ : Table String) rfl "EIR" q.2
    rw [eEIR9, h4]
    show Except.ok (some [((some (1 / mkRat 1 4) : Option ℚ),
        (some (12 / ((1 / mkRat 1 4) * (3412 / 1000 : ℚ))) : Option ℚ))]) =
      Except.ok (some [(some 4, some (750/853))])
    have r1 : (1 / mkRat 1 4 : ℚ) = 4 := by norm_num [Rat.mkRat_eq_div]
    rw [r1]
    have r2 : (12 / ((4 : ℚ) * (3412 / 1000)) : ℚ) = 750/853 := by norm_num
    rw [r2]

/-! ### C7 — numeric coercion policy of the finalized tables -/

/-- C7 (amended): the PS-F pass (`errors='ignore'`) is total and
per-column all-or-nothing — a column in which every entry parses is
coerced wholesale, a column with any failing entry is returned entirely
unchanged (even its cleanly parsing cells); a parsing string cell
coerces to its number and a non-parsing one passes through.  The PV-A
pass uses strict `to_numeric`: a frame with any failing cell in the
selected columns raises `ValueError`, and a failing `CIRCULATION LOOPS`
frame halts `post_process_pv_a` with that error. -/
theorem numeric_coercion_policy :
    (∀ (d : List (String × Table (String × String))),
      post_process_ps_f d = d.map (fun p => (p.1, ignoreCoerce p.2)) ∧
      keysD (post_process_ps_f d) = keysD d) ∧
    (∀ (κ : Type) (t : Table κ) (i j : Nat)
        (hi : i < t.rows.length) (hi' : i < (ignoreCoerce t).rows.length),
      ((ignoreCoerce t).rows.get ⟨i, hi'⟩).1 = (t.rows.get ⟨i, hi⟩).1 ∧
      (j < ((t.rows.get ⟨i, hi⟩).2 : List Cell).length →
        ((ignoreCoerce t).rows.get ⟨i, hi'⟩).2.getD j Cell.nan =
          if colAllParses t j = true
          then coerceCell ((t.rows.get ⟨i, hi⟩).2.getD j Cell.nan)
          else (t.rows.get ⟨i, hi⟩).2.getD j Cell.nan)) ∧
    (∀ (s : String) (q : ℚ), toNumeric s = some q →
      coerceCell (Cell.val s) = Cell.num q) ∧
    (∀ (s : String), toNumeric s = none →
      coerceCell (Cell.val s) = Cell.val s) ∧
    (∀ (κ : Type) (t : Table κ) (names : List String),
      (colIdxs t names).all (fun j => colAllParses t j) = false →
      strictCoerceCols t names = Except.error PErr.valueError) ∧
    (∀ (t1 t2 t3 t4 t5 : Table String) (e : PErr),
      strictCoerceAll t1 = Except.error e →
      post_process_pv_a
          [("CIRCULATION LOOPS", t1), ("PUMPS", t2),
           ("PRIMARY EQUIPMENT", t3), ("COOLING TOWERS", t4),
           ("DW-HEATERS", t5)] = Except.error e) := by
  refine ⟨?_, ?_, ?_, ?_, ?_, ?_⟩
  · intro d
    refine ⟨rfl, ?_⟩
    simp [post_process_ps_f, keysD]
  · intro κ t i j hi hi'
    constructor
    · simp only [ignoreCoerce, List.get_eq_getElem, List.getElem_map]
    · intro hj
      simp only [ignoreCoerce, List.get_eq_getElem, List.getElem_map]
      simp only [List.get_eq_getElem] at hj
      simp only [List.getD]
      rw [List.get?_map, List.get?_range hj]
      rfl
  · intro s q h
    simp [coerceCell, h]
  · intro s h
    simp [coerceCell, h]
  · intro κ t names h
    simp [strictCoerceCols, h]
  · intro t1 t2 t3 t4 t5 e h
    unfold post_process_pv_a
    rw [except_bind_eq (show lookupE
        [("CIRCULATION LOOPS", t1), ("PUMPS", t2),
         ("PRIMARY EQUIPMENT", t3), ("COOLING TOWERS", t4),
         ("DW-HEATERS", t5)] "CIRCULATION LOOPS" = Except.ok t1 from rfl),
      except_bind_error h]

/-- C7 witness: the policy applied to concrete frames — a mixed column
keeps its cleanly-parsing cell uncoerced, `coerceCell` coerces `1.5`
and passes `abc` through, and the unparseable circulation-loop frame
raises `ValueError` through `post_process_pv_a`. -/
theorem numeric_coercion_policy_witness :
    post_process_ps_f [("GAS", mixed_col_tbl)] =
      [("GAS", ignoreCoerce mixed_col_tbl)] ∧
    ((ignoreCoerce mixed_col_tbl).rows.get ⟨0, by decide⟩).2.getD 0 Cell.nan =
      Cell.val "1.5" ∧
    coerceCell (Cell.val "1.5") = Cell.num (mkRat 15 10) ∧
    coerceCell (Cell.val "abc") = Cell.val "abc" ∧
    strictCoerceCols circ_bad loop_info_cols = Except.error PErr.valueError ∧
    post_process_pv_a pva_dict_bad = Except.error PErr.valueError := by
  refine ⟨(numeric_coercion_policy.1 [("GAS", mixed_col_tbl)]).1, ?_,
    numeric_coercion_policy.2.2.1 "1.5" (mkRat 15 10) (by decide),
    numeric_coercion_policy.2.2.2.1 "abc" (by decide),
    numeric_coercion_policy.2.2.2.2.1 String circ_bad loop_info_cols
      (by decide), ?_⟩
  · have hcell := (numeric_coercion_policy.2.1 (String × String)
      mixed_col_tbl 0 0 (by decide) (by decide)).2 (by decide)
    rw [hcell]
    decide
  · exact numeric_coercion_policy.2.2.2.2.2 circ_bad ⟨pump_info_cols, []⟩
      ⟨primary_info_cols, []⟩ ⟨ct_info_cols, []⟩ ⟨dhw_info_cols, []⟩
      PErr.valueError (by decide)

/-- C7 counterexample: `1.5` parses cleanly yet survives uncoerced in a
column that also holds `abc` (pandas `errors='ignore'` is per-column
all-or-nothing, not per-cell), and a value failing coercion does raise:
`post_process_pv_a` halts with `ValueError` on the unparseable
circulation-loop cell. -/
theorem coercion_policy_counterexample :
    (toNumeric "1.5").isSome = true ∧
    (ignoreCoerce mixed_col_tbl).rows.map (fun p => p.2) =
      [[Cell.val "1.5"], [Cell.val "abc"]] ∧
    post_process_pv_a pva_dict_bad = Except.error PErr.valueError := by
  refine ⟨by decide, by decide, by decide⟩

end EqSim
